import Mathlib

/-!
Verification of the hospital-management-system repository.

This file gives a shallow embedding of the database-utility layer
(src/db_util.py and src/backend/db_util.py) and of the service layer
(src/hospital_service.py and src/system/hospital_service.py), and proves
the behavioural claims about them.

Modelling conventions:
* Python/SQL scalar values are `Value` (NULL, integers, strings).
* A `pymysql.Error` instance is `PyErr`: its exception class and its
  `args` tuple (for server errors pymysql always passes
  `(errno, message)`).
* Raised exceptions are modelled with `Except`; `AppExn` distinguishes
  the application-level `DatabaseError` from a `pymysql.Error`.
* The MySQL connection (`autocommit=False`) is `Conn σ`: a committed
  snapshot plus the pending (uncommitted) state of the current
  transaction.  `commit` publishes pending work, `rollback` discards it.
* A SQL statement is `Stmt σ`: from the pending state it either
  succeeds with a new state and an affected-row count, or fails with a
  `PyErr` (still exposing the partially mutated server state, which a
  rollback then discards).
* A stored procedure is `Proc σ`: from the pending state and the call
  arguments it either fails, or succeeds with a new state, the final
  values of the per-parameter MySQL session variables
  `@_procname_0 ...` (so OUT positions hold the values assigned by the
  procedure), and the result sets it produced, in order.
-/

inductive Value where
  | vNull : Value
  | vInt (n : Int) : Value
  | vStr (s : String) : Value
deriving DecidableEq

/-- Python str() of a scalar value. -/
def pyStr : Value → String
  | Value.vNull => "None"
  | Value.vInt n => toString n
  | Value.vStr s => s

/-- The pymysql exception class of an error: `pymysql.err.IntegrityError`,
`pymysql.err.OperationalError`, or any other subclass of `pymysql.Error`. -/
inductive PyCls where
  | generic : PyCls
  | integrityError : PyCls
  | operationalError : PyCls
deriving DecidableEq

/-- A `pymysql.Error` value: its class and its `args` tuple.  Errors coming
from the MySQL server always carry `args = (errno, message)`. -/
structure PyErr where
  cls : PyCls
  args : List Value
deriving DecidableEq

/-- Python str() of a `pymysql.Error` (tuple rendering of `args`;
string quoting is elided, no claim depends on the exact text). -/
def pyErrStr (e : PyErr) : String :=
  match e.args with
  | [a] => pyStr a
  | as => "(" ++ String.intercalate ", " (as.map pyStr) ++ ")"

/-- An exception escaping the database layer: either the application-level
`DatabaseError` (src/db_util.py line 13) or a `pymysql.Error`. -/
inductive AppExn where
  | databaseError (msg : String) : AppExn
  | pymysqlError (e : PyErr) : AppExn
deriving DecidableEq

/-- Transaction-control actions performed on the connection by a wrapper. -/
inductive DbAction where
  | executeStmt : DbAction
  | commitTxn : DbAction
  | rollbackTxn : DbAction
deriving DecidableEq

/-- A MySQL connection with `autocommit=False`: the durable committed state
and the pending state of the open transaction. -/
structure Conn (σ : Type) where
  committed : σ
  pending : σ
deriving DecidableEq

theorem Conn.ext_iff {σ : Type} {a b : Conn σ} :
    a = b ↔ a.committed = b.committed ∧ a.pending = b.pending := by
  cases a; cases b; simp

/-- `connection.commit()`: the pending state becomes durable. -/
def Conn.commit {σ : Type} (c : Conn σ) : Conn σ := ⟨c.pending, c.pending⟩

/-- `connection.rollback()`: the pending state is reset to the last
committed snapshot, undoing all uncommitted changes. -/
def Conn.rollback {σ : Type} (c : Conn σ) : Conn σ := ⟨c.committed, c.committed⟩

/-- Semantics of one SQL data-modification statement, as executed by
`cursor.execute`: succeed with the new server state and the affected-row
count, or fail with a `pymysql.Error` (exposing the partially mutated
state that the subsequent rollback discards). -/
def Stmt (σ : Type) : Type := σ → Except (σ × PyErr) (σ × Nat)

/-- A result-set row as produced by `pymysql.cursors.DictCursor`. -/
abbrev Row := List (String × Value)

/-- Semantics of a stored procedure invoked via `CALL` on the per-parameter
session variables: on success it yields the new server state, the final
values of the session variables (OUT positions hold what the procedure
assigned), and the produced result sets in order. -/
structure Proc (σ : Type) where
  run : σ → List Value → Except (σ × PyErr) (σ × List Value × List (List Row))

/-- `DatabaseManager._handle_database_error` (src/db_util.py lines 160-191
and src/backend/db_util.py lines 151-182, identical): if the error has at
least two args and `args[0]` is one of the custom codes 1001-1004, raise
`DatabaseError(str(args[1]))`; otherwise re-raise the original
`pymysql.Error`.  The function always raises, so it is modelled as
returning the exception that it raises. -/
def DatabaseManager.handle_database_error (error : PyErr) : AppExn :=
  if 2 ≤ error.args.length then
    let error_code := error.args.headD Value.vNull
    let error_message := pyStr (error.args.getD 1 Value.vNull)
    if error_code ∈ [Value.vInt 1001, Value.vInt 1002, Value.vInt 1003, Value.vInt 1004] then
      AppExn.databaseError error_message
    else
      AppExn.pymysqlError error
  else
    AppExn.pymysqlError error

/-- `DatabaseManager.execute_query` for SELECT statements (src/db_util.py
lines 52-73): reads from the pending state of the connection, performs no
commit or rollback.  The query semantics is passed as a pure function. -/
def DatabaseManager.execute_query {σ α : Type} (q : σ → α) (c : Conn σ) : α :=
  q c.pending

/-- `DatabaseManager.execute_non_query` (src/db_util.py lines 75-99):
execute the statement on the open transaction; on success commit and
return the affected-row count; on a `pymysql.Error` roll back and hand
the error to `_handle_database_error`. -/
def DatabaseManager.execute_non_query {σ : Type} (stmt : Stmt σ) (c : Conn σ) :
    Except AppExn Nat × Conn σ × List DbAction :=
  match stmt c.pending with
  | Except.ok (s, affected_rows) =>
      (Except.ok affected_rows, Conn.commit { c with pending := s },
       [DbAction.executeStmt, DbAction.commitTxn])
  | Except.error (s, e) =>
      (Except.error (DatabaseManager.handle_database_error e),
       Conn.rollback { c with pending := s },
       [DbAction.executeStmt, DbAction.rollbackTxn])

/-- The result-set collection loop of `call_procedure` (src/db_util.py
lines 133-150): fetch each available result set in order and keep it
only if it is non-empty (`if results: result_sets.append(results)`). -/
def collectResultSets : List (List Row) → List (List Row)
  | [] => []
  | results :: rest =>
      if results = [] then collectResultSets rest
      else results :: collectResultSets rest

/-- `DatabaseManager.call_procedure` (src/db_util.py lines 101-158).
`cursor.callproc(proc_name, params or ())` sets the session variables
`@_proc_name_i` to the arguments, issues the `CALL`, and returns its
`params` argument unchanged - pymysql does not read the session
variables back, so the returned first component is exactly the tuple
that was passed in, whatever the procedure assigned to OUT positions.
The wrapper then gathers the non-empty result sets, commits on success,
and on a `pymysql.Error` rolls back and calls `_handle_database_error`. -/
def DatabaseManager.call_procedure {σ : Type} (proc : Proc σ) (params : List Value)
    (c : Conn σ) :
    Except AppExn (List Value × List (List Row)) × Conn σ × List DbAction :=
  match proc.run c.pending params with
  | Except.ok (s, _sessionVars, resultSets) =>
      (Except.ok (params, collectResultSets resultSets),
       Conn.commit { c with pending := s },
       [DbAction.executeStmt, DbAction.commitTxn])
  | Except.error (s, e) =>
      (Except.error (DatabaseManager.handle_database_error e),
       Conn.rollback { c with pending := s },
       [DbAction.executeStmt, DbAction.rollbackTxn])

/-- `DatabaseManager.call_procedure` of src/backend/db_util.py
(lines 101-149).  After `cursor.callproc`, when `params` is non-empty it
issues `SELECT @_proc_0, @_proc_1, ...` and takes the row as the updated
parameters, so OUT positions do reflect the assigned values; but issuing
that SELECT makes pymysql drain the remaining result sets of the CALL,
the subsequent `fetchall()` returns the rest of the one-row SELECT
(nothing, `fetchone` consumed it) and `nextset()` is exhausted, so the
returned result-set list is empty.  When `params` is empty the SELECT is
skipped and the result sets are collected as in src/db_util.py.  On a
`pymysql.Error` it rolls back and re-raises the error unchanged: the
call of `_handle_database_error` is commented out (line 148), so this
variant never raises `DatabaseError`. -/
def BackendDatabaseManager.call_procedure {σ : Type} (proc : Proc σ) (params : List Value)
    (c : Conn σ) :
    Except AppExn (List Value × List (List Row)) × Conn σ × List DbAction :=
  match proc.run c.pending params with
  | Except.ok (s, sessionVars, resultSets) =>
      if params = [] then
        (Except.ok (params, collectResultSets resultSets),
         Conn.commit { c with pending := s },
         [DbAction.executeStmt, DbAction.commitTxn])
      else
        (Except.ok (sessionVars, []),
         Conn.commit { c with pending := s },
         [DbAction.executeStmt, DbAction.commitTxn])
  | Except.error (s, e) =>
      (Except.error (AppExn.pymysqlError e),
       Conn.rollback { c with pending := s },
       [DbAction.executeStmt, DbAction.rollbackTxn])

/-! ### String helpers used by `HospitalService.pay_bill`

`strIn` models the Python substring test `needle in hay`; `charIndex`
models `str.index` restricted to a single character. -/

/-- Whether `hay` starts with `needle` (character lists). -/
def listStartsWith : List Char → List Char → Bool
  | [], _ => true
  | _ :: _, [] => false
  | a :: as, b :: bs => a == b && listStartsWith as bs

/-- Whether `needle` occurs as a contiguous substring of `hay`. -/
def listHasSub (needle : List Char) : List Char → Bool
  | [] => needle.isEmpty
  | b :: bs => listStartsWith needle (b :: bs) || listHasSub needle bs

/-- Python `needle in hay` on strings. -/
def strIn (needle hay : String) : Bool :=
  listHasSub needle.toList hay.toList

/-- Index of the first occurrence of `ch`, if any (Python `str.index`). -/
def charIndex (ch : Char) : List Char → Option Nat
  | [] => none
  | a :: as => if a = ch then some 0 else (charIndex ch as).map (· + 1)

/-- The double-quote character. -/
def quoteChar : Char := Char.ofNat 34

/-- Drug-name extraction of `HospitalService.pay_bill`
(src/hospital_service.py lines 286-294): `start = msg.index(q) + 1`,
`end = msg.index(q, start)`, `msg[start:end]`, falling back to
`"Unknown"` when either `str.index` raises ValueError. -/
def extractDrugName (error_msg : String) : String :=
  let cs := error_msg.toList
  match charIndex quoteChar cs with
  | none => "Unknown"
  | some i =>
      let rest := cs.drop (i + 1)
      match charIndex quoteChar rest with
      | none => "Unknown"
      | some j => String.mk (rest.take j)

/-- The marker the pay_bill error handler looks for. -/
def insufficientStockNeedle : String := "Insufficient stock for drug"

/-- The dictionary returned by `HospitalService.pay_bill`; absent keys are
`none`. -/
structure PayDict where
  success : Bool
  message : String
  drug_name : Option String := none
  error_type : Option String := none
deriving DecidableEq

/-- Outcome of a service method: a returned dictionary or a raised
exception. -/
inductive PayOutcome where
  | ret (d : PayDict) : PayOutcome
  | raiseExn (e : AppExn) : PayOutcome
deriving DecidableEq

/-- `HospitalService.pay_bill` (src/hospital_service.py lines 240-309; the
src/system variant differs only in the literal message texts).  It runs
the UPDATE through `execute_non_query`; a zero affected-row count and an
insufficient-stock `DatabaseError` are turned into `success = False`
dictionaries, any other `DatabaseError` is re-raised as a `DatabaseError`
with a context prefix, and any other `pymysql.Error` is re-raised as a
fresh `pymysql.Error`. -/
def HospitalService.pay_bill {σ : Type} (updateStmt : Stmt σ) (payment_id : Value)
    (c : Conn σ) : PayOutcome × Conn σ :=
  match DatabaseManager.execute_non_query updateStmt c with
  | (Except.ok affected, c1, _) =>
      if affected = 0 then
        let notFoundMsg := "Payment ID " ++ pyStr payment_id ++ " not found or already paid"
        (PayOutcome.ret { success := false, message := notFoundMsg }, c1)
      else
        (PayOutcome.ret { success := true, message := "Payment processed successfully" }, c1)
  | (Except.error (AppExn.databaseError m), c1, _) =>
      if strIn insufficientStockNeedle m then
        let d : PayDict :=
          { success := false, message := m, drug_name := some (extractDrugName m),
            error_type := some "inventory_shortfall" }
        (PayOutcome.ret d, c1)
      else
        (PayOutcome.raiseExn (AppExn.databaseError ("Payment processing failed: " ++ m)), c1)
  | (Except.error (AppExn.pymysqlError e), c1, _) =>
      let e2 : PyErr :=
        { cls := PyCls.generic,
          args := [Value.vStr ("Database error during payment processing: " ++ pyErrStr e)] }
      (PayOutcome.raiseExn (AppExn.pymysqlError e2), c1)

/-! ### `HospitalService.submit_diagnosis` -/

/-- One entry of the `drug_list` argument: a Python dict with mandatory
keys `drug_id` and `quantity` and optional keys `dosage`,
`duration_days`, `notes`. -/
structure DrugEntry where
  drug_id : Value
  quantity : Value
  dosage : Option Value := none
  duration_days : Option Value := none
  notes : Option Value := none
deriving DecidableEq

/-- The parameter tuple passed to `sp_finish_consultation` for one drug
(src/hospital_service.py lines 178-189): missing optional keys default to
dosage `按医嘱`, duration_days `7`, notes the empty string; the two
trailing `None` fill the OUT positions. -/
def consultationParams (reg_id : Value) (drug : DrugEntry) : List Value :=
  [reg_id, drug.drug_id, drug.quantity,
   drug.dosage.getD (Value.vStr "按医嘱"),
   drug.duration_days.getD (Value.vInt 7),
   drug.notes.getD (Value.vStr ""),
   Value.vNull, Value.vNull]

/-- The interface `submit_diagnosis` uses: `self.db.call_procedure`
specialised to the one procedure name it passes, as a stateful callable
returning the pair (out-parameter tuple, result sets) or raising. -/
def CallProc (σ : Type) : Type :=
  List Value → σ → Except AppExn (List Value × List (List Row)) × σ

/-- The `for drug in drug_list` loop of `submit_diagnosis`
(src/hospital_service.py lines 175-195): one `sp_finish_consultation`
call per entry, in order, appending `out_params[-1]` as the payment id;
the first raised exception aborts the loop and discards the ids
accumulated so far.  The third component records the parameter tuple of
every call that was issued, in order. -/
def HospitalService.submit_diagnosis_loop {σ : Type} (callProc : CallProc σ) (reg_id : Value) :
    List DrugEntry → σ → Except AppExn (List Value) × σ × List (String × List Value)
  | [], st => (Except.ok [], st, [])
  | drug :: rest, st =>
      let params := consultationParams reg_id drug
      match callProc params st with
      | (Except.ok (out_params, _result_sets), st1) =>
          match HospitalService.submit_diagnosis_loop callProc reg_id rest st1 with
          | (Except.ok payment_ids, st2, calls) =>
              (Except.ok (out_params.getLastD Value.vNull :: payment_ids), st2,
               ("sp_finish_consultation", params) :: calls)
          | (Except.error e, st2, calls) =>
              (Except.error e, st2, ("sp_finish_consultation", params) :: calls)
      | (Except.error e, st1) => (Except.error e, st1, [("sp_finish_consultation", params)])

/-- The two except clauses of `submit_diagnosis`
(src/hospital_service.py lines 197-202): a `DatabaseError` and a
`pymysql.Error` are each re-raised with a context prefix. -/
def diagnosisWrap : AppExn → AppExn
  | AppExn.databaseError m =>
      AppExn.databaseError ("Diagnosis submission failed: " ++ m)
  | AppExn.pymysqlError e =>
      AppExn.pymysqlError
        { cls := PyCls.generic,
          args := [Value.vStr ("Database error during diagnosis submission: " ++ pyErrStr e)] }

/-- `HospitalService.submit_diagnosis` (src/hospital_service.py
lines 153-202): the loop above wrapped in the try/except that adds the
context prefixes. -/
def HospitalService.submit_diagnosis {σ : Type} (callProc : CallProc σ) (reg_id : Value)
    (drug_list : List DrugEntry) (st : σ) :
    Except AppExn (List Value) × σ × List (String × List Value) :=
  match HospitalService.submit_diagnosis_loop callProc reg_id drug_list st with
  | (Except.ok payment_ids, st1, calls) => (Except.ok payment_ids, st1, calls)
  | (Except.error e, st1, calls) => (Except.error (diagnosisWrap e), st1, calls)

/-- `self.db.call_procedure` of the service object: the
`DatabaseManager.call_procedure` of src/db_util.py, viewed through the
`CallProc` interface. -/
def dbCallProc {σ : Type} (proc : Proc σ) : CallProc (Conn σ) :=
  fun params c =>
    match DatabaseManager.call_procedure proc params c with
    | (r, c1, _) => (r, c1)

/-- `submit_diagnosis` as actually wired: against the src/db_util.py
database manager holding stored procedure `sp_finish_consultation`. -/
def HospitalService.submit_diagnosis_db {σ : Type} (proc : Proc σ) (reg_id : Value)
    (drug_list : List DrugEntry) (c : Conn σ) :
    Except AppExn (List Value) × Conn σ × List (String × List Value) :=
  HospitalService.submit_diagnosis (dbCallProc proc) reg_id drug_list c

/-- An always-succeeding call oracle that answers the `k`-th call (0-based)
with out-parameter tuple `f k` and no result sets; the state is the call
counter. -/
def counterOracle (f : Nat → List Value) : CallProc Nat :=
  fun _params k => (Except.ok (f k, []), k + 1)

/-! ### The SQL requests handed to the database layer (parameterized
queries).  Query text is the literal from the source with whitespace
normalized; all user-supplied data travels in the params component. -/

structure DbRequest where
  sql : String
  params : List Value
deriving DecidableEq

/-- Query text of `get_waiting_list` (src/hospital_service.py lines 134-150). -/
def waitingListSql : String :=
  "SELECT r.registration_id, r.patient_id, p.patient_name, p.gender, p.phone, r.registration_date, r.registration_time, r.chief_complaint, r.status FROM registration r JOIN patient p ON r.patient_id = p.patient_id WHERE r.doctor_id = %s AND r.status = 1 ORDER BY r.registration_date, r.registration_time"

/-- Query text of `get_pending_payments` (src/hospital_service.py lines 221-237). -/
def pendingPaymentsSql : String :=
  "SELECT p.payment_id, p.registration_id, p.payment_type, p.amount, p.payment_method, p.payment_status, r.registration_date, r.doctor_id, d.doctor_name FROM payment p JOIN registration r ON p.registration_id = r.registration_id LEFT JOIN doctor d ON r.doctor_id = d.doctor_id WHERE r.patient_id = %s AND p.payment_status = 0 ORDER BY p.created_at"

/-- Query text of `authenticate_patient` (src/system/hospital_service.py lines 361-372). -/
def authenticatePatientSql : String :=
  "SELECT patient_id, patient_name, gender, date_of_birth, phone, address, id_card FROM patient WHERE id_card = %s"

/-- Statement text of the UPDATE in `pay_bill` (src/hospital_service.py lines 262-266). -/
def payBillUpdateSql : String :=
  "UPDATE payment SET payment_status = 1, payment_date = NOW() WHERE payment_id = %s"

/-- Query text of `get_low_stock_drugs` (src/hospital_service.py lines 330-341). -/
def lowStockSql : String :=
  "SELECT drug_id, drug_name, drug_code, specification, unit_price, stored_quantity FROM drug WHERE stored_quantity < %s ORDER BY stored_quantity ASC"

/-- The parameterized call issued by `get_doctors_by_dept`
(src/hospital_service.py lines 46-62). -/
def HospitalService.get_doctors_by_dept_request (dept_id : Value) : DbRequest :=
  { sql := "SELECT * FROM doctor WHERE department_id = %s", params := [dept_id] }

/-- The parameterized call issued by `get_waiting_list`. -/
def HospitalService.get_waiting_list_request (doctor_id : Value) : DbRequest :=
  { sql := waitingListSql, params := [doctor_id] }

/-- The parameterized call issued by `get_pending_payments`. -/
def HospitalService.get_pending_payments_request (patient_id : Value) : DbRequest :=
  { sql := pendingPaymentsSql, params := [patient_id] }

/-- The parameterized call issued by `authenticate_patient`. -/
def HospitalService.authenticate_patient_request (id_card : Value) : DbRequest :=
  { sql := authenticatePatientSql, params := [id_card] }

/-- The parameterized UPDATE issued by `pay_bill`. -/
def HospitalService.pay_bill_update_request (payment_id : Value) : DbRequest :=
  { sql := payBillUpdateSql, params := [payment_id] }

/-- The parameterized call issued by `get_low_stock_drugs`. -/
def HospitalService.get_low_stock_drugs_request (threshold : Value) : DbRequest :=
  { sql := lowStockSql, params := [threshold] }

/-! ### The relational state

Minimal table model carrying the columns the verified queries touch.
Dates and times are represented by their ordinals, money amounts by
integers; nothing below depends on more than their linear order. -/

structure PatientRow where
  patient_id : Int
  patient_name : String
  gender : String
  phone : String
deriving DecidableEq

structure RegistrationRow where
  registration_id : Int
  patient_id : Int
  doctor_id : Int
  department_id : Int
  registration_date : Int
  registration_time : Int
  chief_complaint : String
  status : Int
deriving DecidableEq

structure DoctorRow where
  doctor_id : Int
  department_id : Int
deriving DecidableEq

structure DepartmentRow where
  department_id : Int
deriving DecidableEq

structure DrugRow where
  drug_id : Int
  drug_name : String
  drug_code : String
  specification : String
  unit_price : Int
  stored_quantity : Int
deriving DecidableEq

structure PrescriptionRow where
  prescription_id : Int
  registration_id : Int
  drug_id : Int
deriving DecidableEq

structure HospitalDb where
  patients : List PatientRow
  doctors : List DoctorRow
  departments : List DepartmentRow
  registrations : List RegistrationRow
  drugs : List DrugRow
  prescriptions : List PrescriptionRow
deriving DecidableEq

/-! ### `get_waiting_list` query semantics -/

/-- The projection produced by the waiting-list SELECT. -/
structure WaitingRow where
  registration_id : Int
  patient_id : Int
  patient_name : String
  gender : String
  phone : String
  registration_date : Int
  registration_time : Int
  chief_complaint : String
  status : Int
deriving DecidableEq

/-- One joined and projected row of the waiting-list query. -/
def projWaiting (r : RegistrationRow) (p : PatientRow) : WaitingRow :=
  { registration_id := r.registration_id, patient_id := r.patient_id,
    patient_name := p.patient_name, gender := p.gender, phone := p.phone,
    registration_date := r.registration_date, registration_time := r.registration_time,
    chief_complaint := r.chief_complaint, status := r.status }

/-- The ORDER BY key of the waiting-list query:
`registration_date, registration_time` ascending. -/
def waitingLE (a b : WaitingRow) : Prop :=
  a.registration_date < b.registration_date ∨
    (a.registration_date = b.registration_date ∧ a.registration_time ≤ b.registration_time)

instance : DecidableRel waitingLE := fun a b => by
  unfold waitingLE; exact inferInstance

instance : IsTotal WaitingRow waitingLE :=
  ⟨by intro a b; unfold waitingLE; omega⟩

instance : IsTrans WaitingRow waitingLE :=
  ⟨by intro a b c; unfold waitingLE; omega⟩

/-- The unsorted rows of the waiting-list query: registrations of the given
doctor with status 1, inner-joined with the patient table on patient_id. -/
def joinedWaitingRows (db : HospitalDb) (doctor_id : Int) : List WaitingRow :=
  (db.registrations.filter (fun r => decide (r.doctor_id = doctor_id ∧ r.status = 1))).flatMap
    (fun r => (db.patients.filter (fun p => p.patient_id == r.patient_id)).map (projWaiting r))

/-- `HospitalService.get_waiting_list` (src/hospital_service.py
lines 118-151): the MySQL evaluation of `waitingListSql` - filter on
`doctor_id = %s AND status = 1`, JOIN patient, ORDER BY
registration_date, registration_time. -/
def HospitalService.get_waiting_list (db : HospitalDb) (doctor_id : Int) : List WaitingRow :=
  List.insertionSort waitingLE (joinedWaitingRows db doctor_id)

/-! ### `get_low_stock_drugs` query semantics -/

/-- The projection produced by the low-stock SELECT. -/
structure LowStockRow where
  drug_id : Int
  drug_name : String
  drug_code : String
  specification : String
  unit_price : Int
  stored_quantity : Int
deriving DecidableEq

def projLowStock (d : DrugRow) : LowStockRow :=
  { drug_id := d.drug_id, drug_name := d.drug_name, drug_code := d.drug_code,
    specification := d.specification, unit_price := d.unit_price,
    stored_quantity := d.stored_quantity }

/-- The ORDER BY key of the low-stock query: `stored_quantity ASC`. -/
def lowStockLE (a b : LowStockRow) : Prop :=
  a.stored_quantity ≤ b.stored_quantity

instance : DecidableRel lowStockLE := fun a b => by
  unfold lowStockLE; exact inferInstance

instance : IsTotal LowStockRow lowStockLE :=
  ⟨by intro a b; unfold lowStockLE; omega⟩

instance : IsTrans LowStockRow lowStockLE :=
  ⟨by intro a b c; unfold lowStockLE; omega⟩

/-- `HospitalService.get_low_stock_drugs` (src/hospital_service.py
lines 315-342): the MySQL evaluation of `lowStockSql` - keep the drugs
with `stored_quantity < %s` and sort ascending by stored_quantity; the
Python signature defaults the threshold to 10. -/
def HospitalService.get_low_stock_drugs (db : HospitalDb) (threshold : Int := 10) :
    List LowStockRow :=
  List.insertionSort lowStockLE
    ((db.drugs.filter (fun d => d.stored_quantity < threshold)).map projLowStock)

/-! ### The admin delete methods (src/system/hospital_service.py) -/

/-- A `{success, message}` dictionary. -/
structure ResultDict where
  success : Bool
  message : String
deriving DecidableEq

/-- Outcome of a delete method: a returned dictionary or a raised
exception. -/
inductive DelOutcome where
  | ret (d : ResultDict) : DelOutcome
  | raiseExn (e : AppExn) : DelOutcome
deriving DecidableEq

/-- MySQL error 1451: cannot delete a parent row, a foreign key
constraint fails (an `IntegrityError`). -/
def integrityError1451 : PyErr :=
  { cls := PyCls.integrityError,
    args := [Value.vInt 1451,
             Value.vStr "Cannot delete or update a parent row: a foreign key constraint fails"] }

/-- Common body of `delete_patient`, `delete_doctor`, `delete_department`
and `delete_drug` (src/system/hospital_service.py lines 521-575, 622-676,
708-762, 800-854, which repeat it verbatim up to entity names and message
texts): count the dependent records and refuse when the count is
positive; otherwise run the DELETE through `execute_non_query`; a zero
affected-row count reports not-found; an `IntegrityError` with
`args[0] == 1451` is caught ("double insurance") and reported as a
refusal; any other `IntegrityError` is re-raised unchanged by the bare
`raise`; any other `pymysql.Error` is re-raised wrapped; a
`DatabaseError` from the non-query wrapper matches no except clause and
propagates unchanged. -/
def deleteWithCheck {σ : Type} (depCount : σ → Nat) (delStmt : Stmt σ)
    (msgHasDeps : Nat → String) (msgNotFound msgOk msg1451 wrapMsg : String)
    (c : Conn σ) : DelOutcome × Conn σ × List DbAction :=
  let cnt := DatabaseManager.execute_query depCount c
  if 0 < cnt then
    (DelOutcome.ret { success := false, message := msgHasDeps cnt }, c, [])
  else
    match DatabaseManager.execute_non_query delStmt c with
    | (Except.ok affected, c1, acts) =>
        if affected = 0 then
          (DelOutcome.ret { success := false, message := msgNotFound }, c1, acts)
        else
          (DelOutcome.ret { success := true, message := msgOk }, c1, acts)
    | (Except.error (AppExn.pymysqlError e), c1, acts) =>
        if e.cls = PyCls.integrityError then
          if e.args.headD Value.vNull = Value.vInt 1451 then
            (DelOutcome.ret { success := false, message := msg1451 }, c1, acts)
          else
            (DelOutcome.raiseExn (AppExn.pymysqlError e), c1, acts)
        else
          (DelOutcome.raiseExn (AppExn.pymysqlError
              { cls := PyCls.generic, args := [Value.vStr (wrapMsg ++ pyErrStr e)] }),
           c1, acts)
    | (Except.error (AppExn.databaseError m), c1, acts) =>
        (DelOutcome.raiseExn (AppExn.databaseError m), c1, acts)

/-- Dependent-record count of `delete_patient`:
`SELECT COUNT(*) FROM registration WHERE patient_id = %s`. -/
def countRegistrationsOfPatient (s : HospitalDb) (patient_id : Int) : Nat :=
  (s.registrations.filter (fun r => r.patient_id == patient_id)).length

/-- Dependent-record count of `delete_doctor`:
`SELECT COUNT(*) FROM registration WHERE doctor_id = %s`. -/
def countRegistrationsOfDoctor (s : HospitalDb) (doctor_id : Int) : Nat :=
  (s.registrations.filter (fun r => r.doctor_id == doctor_id)).length

/-- Dependent-record count of `delete_department`:
`SELECT COUNT(*) FROM doctor WHERE department_id = %s`. -/
def countDoctorsOfDepartment (s : HospitalDb) (department_id : Int) : Nat :=
  (s.doctors.filter (fun d => d.department_id == department_id)).length

/-- Dependent-record count of `delete_drug`:
`SELECT COUNT(*) FROM prescription WHERE drug_id = %s`. -/
def countPrescriptionsOfDrug (s : HospitalDb) (drug_id : Int) : Nat :=
  (s.prescriptions.filter (fun p => p.drug_id == drug_id)).length

/-- MySQL `DELETE FROM patient WHERE patient_id = %s` under the schema
foreign keys: registration.patient_id references patient, so the DELETE
raises IntegrityError 1451 while a referencing registration exists;
otherwise it removes the matching rows and reports how many. -/
def deletePatientStmt (patient_id : Int) : Stmt HospitalDb := fun s =>
  if 0 < (s.registrations.filter (fun r => r.patient_id == patient_id)).length then
    Except.error (s, integrityError1451)
  else
    Except.ok ({ s with patients := s.patients.filter (fun p => !(p.patient_id == patient_id)) },
               (s.patients.filter (fun p => p.patient_id == patient_id)).length)

/-- MySQL `DELETE FROM doctor WHERE doctor_id = %s`: registration.doctor_id
references doctor. -/
def deleteDoctorStmt (doctor_id : Int) : Stmt HospitalDb := fun s =>
  if 0 < (s.registrations.filter (fun r => r.doctor_id == doctor_id)).length then
    Except.error (s, integrityError1451)
  else
    Except.ok ({ s with doctors := s.doctors.filter (fun d => !(d.doctor_id == doctor_id)) },
               (s.doctors.filter (fun d => d.doctor_id == doctor_id)).length)

/-- MySQL `DELETE FROM department WHERE department_id = %s`: both
doctor.department_id and registration.department_id reference department,
so either kind of dependent row triggers IntegrityError 1451 (the Python
guard counts only doctors, which is why the 1451 handler is reachable
here). -/
def deleteDepartmentStmt (department_id : Int) : Stmt HospitalDb := fun s =>
  if 0 < (s.doctors.filter (fun d => d.department_id == department_id)).length +
         (s.registrations.filter (fun r => r.department_id == department_id)).length then
    Except.error (s, integrityError1451)
  else
    Except.ok
      ({ s with departments :=
            s.departments.filter (fun d => !(d.department_id == department_id)) },
       (s.departments.filter (fun d => d.department_id == department_id)).length)

/-- MySQL `DELETE FROM drug WHERE drug_id = %s`: prescription.drug_id
references drug. -/
def deleteDrugStmt (drug_id : Int) : Stmt HospitalDb := fun s =>
  if 0 < (s.prescriptions.filter (fun p => p.drug_id == drug_id)).length then
    Except.error (s, integrityError1451)
  else
    Except.ok ({ s with drugs := s.drugs.filter (fun d => !(d.drug_id == drug_id)) },
               (s.drugs.filter (fun d => d.drug_id == drug_id)).length)

/-! Message texts of the four delete methods
(src/system/hospital_service.py). -/

def patientHasDepsMsg (n : Nat) : String :=
  "无法删除该病人，因为该病人有 " ++ toString n ++ " 条挂号记录。请先删除相关挂号记录。"

def patientNotFoundMsg (patient_id : Int) : String :=
  "病人ID " ++ toString patient_id ++ " 不存在"

def patientDeletedMsg : String := "病人删除成功"

def patientFkMsg : String := "无法删除该病人，因为该病人已有关联的挂号或其他记录"

def patientWrapMsg : String := "删除患者失败："

def doctorHasDepsMsg (n : Nat) : String :=
  "无法删除该医生，因为该医生有 " ++ toString n ++ " 条挂号记录。请先删除相关挂号记录。"

def doctorNotFoundMsg (doctor_id : Int) : String :=
  "医生ID " ++ toString doctor_id ++ " 不存在"

def doctorDeletedMsg : String := "医生删除成功"

def doctorFkMsg : String := "无法删除该医生，因为该医生已有关联的挂号记录"

def doctorWrapMsg : String := "删除医生失败："

def departmentHasDepsMsg (n : Nat) : String :=
  "该科室下仍有 " ++ toString n ++ " 位医生，请先转移或删除医生"

def departmentNotFoundMsg (department_id : Int) : String :=
  "科室ID " ++ toString department_id ++ " 不存在"

def departmentDeletedMsg : String := "科室删除成功"

def departmentFkMsg : String := "无法删除该科室，因为该科室下仍有医生或其他关联记录"

def departmentWrapMsg : String := "删除科室失败："

def drugHasDepsMsg (n : Nat) : String :=
  "无法删除该药品，因为已有病人的处方包含了此药（" ++ toString n ++ " 条处方记录）"

def drugNotFoundMsg (drug_id : Int) : String :=
  "药品ID " ++ toString drug_id ++ " 不存在"

def drugDeletedMsg : String := "药品删除成功"

def drugFkMsg : String := "无法删除该药品，因为已有病人的处方包含了此药"

def drugWrapMsg : String := "删除药品失败："

/-- `HospitalService.delete_patient` with the DELETE statement abstracted
(the method body does not depend on how the server executes the DELETE). -/
def HospitalService.delete_patient_with (delStmt : Stmt HospitalDb) (patient_id : Int)
    (c : Conn HospitalDb) : DelOutcome × Conn HospitalDb × List DbAction :=
  deleteWithCheck (fun s => countRegistrationsOfPatient s patient_id) delStmt
    patientHasDepsMsg (patientNotFoundMsg patient_id) patientDeletedMsg
    patientFkMsg patientWrapMsg c

/-- `HospitalService.delete_patient` (src/system/hospital_service.py
lines 521-575). -/
def HospitalService.delete_patient (patient_id : Int) (c : Conn HospitalDb) :
    DelOutcome × Conn HospitalDb × List DbAction :=
  HospitalService.delete_patient_with (deletePatientStmt patient_id) patient_id c

/-- `HospitalService.delete_doctor` with the DELETE statement abstracted. -/
def HospitalService.delete_doctor_with (delStmt : Stmt HospitalDb) (doctor_id : Int)
    (c : Conn HospitalDb) : DelOutcome × Conn HospitalDb × List DbAction :=
  deleteWithCheck (fun s => countRegistrationsOfDoctor s doctor_id) delStmt
    doctorHasDepsMsg (doctorNotFoundMsg doctor_id) doctorDeletedMsg
    doctorFkMsg doctorWrapMsg c

/-- `HospitalService.delete_doctor` (src/system/hospital_service.py
lines 622-676). -/
def HospitalService.delete_doctor (doctor_id : Int) (c : Conn HospitalDb) :
    DelOutcome × Conn HospitalDb × List DbAction :=
  HospitalService.delete_doctor_with (deleteDoctorStmt doctor_id) doctor_id c

/-- `HospitalService.delete_department` with the DELETE statement
abstracted. -/
def HospitalService.delete_department_with (delStmt : Stmt HospitalDb) (department_id : Int)
    (c : Conn HospitalDb) : DelOutcome × Conn HospitalDb × List DbAction :=
  deleteWithCheck (fun s => countDoctorsOfDepartment s department_id) delStmt
    departmentHasDepsMsg (departmentNotFoundMsg department_id) departmentDeletedMsg
    departmentFkMsg departmentWrapMsg c

/-- `HospitalService.delete_department` (src/system/hospital_service.py
lines 708-762). -/
def HospitalService.delete_department (department_id : Int) (c : Conn HospitalDb) :
    DelOutcome × Conn HospitalDb × List DbAction :=
  HospitalService.delete_department_with (deleteDepartmentStmt department_id) department_id c

/-- `HospitalService.delete_drug` with the DELETE statement abstracted. -/
def HospitalService.delete_drug_with (delStmt : Stmt HospitalDb) (drug_id : Int)
    (c : Conn HospitalDb) : DelOutcome × Conn HospitalDb × List DbAction :=
  deleteWithCheck (fun s => countPrescriptionsOfDrug s drug_id) delStmt
    drugHasDepsMsg (drugNotFoundMsg drug_id) drugDeletedMsg
    drugFkMsg drugWrapMsg c

/-- `HospitalService.delete_drug` (src/system/hospital_service.py
lines 800-854). -/
def HospitalService.delete_drug (drug_id : Int) (c : Conn HospitalDb) :
    DelOutcome × Conn HospitalDb × List DbAction :=
  HospitalService.delete_drug_with (deleteDrugStmt drug_id) drug_id c

/-! ### Helper lemmas about the error handler -/

/-- `_handle_database_error` on a server error `(code, message)`:
`DatabaseError(str(message))` exactly for the custom codes 1001-1004,
otherwise the original error. -/
theorem handle_two_args (cls : PyCls) (code : Int) (m : Value) :
    DatabaseManager.handle_database_error { cls := cls, args := [Value.vInt code, m] } =
      (if code = 1001 ∨ code = 1002 ∨ code = 1003 ∨ code = 1004 then
        AppExn.databaseError (pyStr m)
      else
        AppExn.pymysqlError { cls := cls, args := [Value.vInt code, m] }) := by
  by_cases h : code = 1001 ∨ code = 1002 ∨ code = 1003 ∨ code = 1004
  · rcases h with h | h | h | h <;> subst h <;> simp [DatabaseManager.handle_database_error]
  · push_neg at h
    obtain ⟨h1, h2, h3, h4⟩ := h
    simp [DatabaseManager.handle_database_error, h1, h2, h3, h4]

/-- An error whose first arg is the code 1451 is passed through unchanged
by `_handle_database_error`. -/
theorem handle_head_1451 (e : PyErr) (h : e.args.headD Value.vNull = Value.vInt 1451) :
    DatabaseManager.handle_database_error e = AppExn.pymysqlError e := by
  simp only [DatabaseManager.handle_database_error, h]
  split_ifs with hl hm
  · exact absurd hm (by decide)
  · rfl
  · rfl

/-- `_handle_database_error` either raises a `DatabaseError` or re-raises
the very error it was given. -/
theorem handle_cases (e : PyErr) :
    (∃ m, DatabaseManager.handle_database_error e = AppExn.databaseError m) ∨
      DatabaseManager.handle_database_error e = AppExn.pymysqlError e := by
  simp only [DatabaseManager.handle_database_error]
  split_ifs
  · exact Or.inl ⟨_, rfl⟩
  · exact Or.inr rfl
  · exact Or.inr rfl

/-! ### Concrete gadgets used in witnesses and counterexamples -/

/-- A trivial state for exercising the wrappers. -/
def unitConn : Conn Unit := ⟨(), ()⟩

/-- A stored procedure whose CALL fails with the custom error code 1001. -/
def failing1001Proc : Proc Unit :=
  { run := fun s _ => Except.error
      (s, { cls := PyCls.operationalError,
            args := [Value.vInt 1001, Value.vStr "Custom check failed"] }) }

/-- A stored procedure that assigns 42 to its single (OUT) session
variable and produces one one-row result set. -/
def outParamProc : Proc Unit :=
  { run := fun s _ => Except.ok (s, [Value.vInt 42], [[[("x", Value.vInt 1)]]]) }

/-- A statement failing with MySQL duplicate-key error 1062 after having
touched the state. -/
def failingStmt1062 : Stmt Nat := fun s =>
  Except.error (s + 7, { cls := PyCls.integrityError,
                         args := [Value.vInt 1062, Value.vStr "Duplicate entry"] })

/-- A statement that increments the state and reports one affected row. -/
def incrStmt : Stmt Nat := fun s => Except.ok (s + 1, 1)

/-- A stored procedure over `Nat` that increments the state. -/
def incrProc : Proc Nat :=
  { run := fun s _ => Except.ok (s + 1, [], []) }

def natConn : Conn Nat := ⟨0, 0⟩

/-! ### C1 -/

/-- C1 counterexample: with a pymysql error of custom code 1001, the
call_procedure of src/backend/db_util.py re-raises the pymysql.Error
unchanged instead of raising the DatabaseError that the claim requires
for both files. -/
theorem backend_call_procedure_code1001_counterexample :
    (BackendDatabaseManager.call_procedure failing1001Proc [] unitConn).1 =
      Except.error (AppExn.pymysqlError
        { cls := PyCls.operationalError,
          args := [Value.vInt 1001, Value.vStr "Custom check failed"] }) ∧
    (BackendDatabaseManager.call_procedure failing1001Proc [] unitConn).1 ≠
      Except.error (AppExn.databaseError "Custom check failed") := by
  refine ⟨rfl, fun hcontra => ?_⟩
  simp [BackendDatabaseManager.call_procedure, failing1001Proc, unitConn] at hcontra

/-- C1 (amended): in src/db_util.py, `call_procedure` raises
`DatabaseError` with the original message exactly for error codes
1001-1004 and re-raises every other `pymysql.Error` as such; the
`call_procedure` of src/backend/db_util.py re-raises every
`pymysql.Error` unchanged and never raises `DatabaseError`. -/
theorem call_procedure_sqlstate_mapping {σ : Type} (proc : Proc σ) (params : List Value)
    (c : Conn σ) (s : σ) (cls : PyCls) (code : Int) (m : Value)
    (hrun : proc.run c.pending params =
      Except.error (s, { cls := cls, args := [Value.vInt code, m] })) :
    ((code = 1001 ∨ code = 1002 ∨ code = 1003 ∨ code = 1004) →
        (DatabaseManager.call_procedure proc params c).1 =
          Except.error (AppExn.databaseError (pyStr m))) ∧
    (¬ (code = 1001 ∨ code = 1002 ∨ code = 1003 ∨ code = 1004) →
        (DatabaseManager.call_procedure proc params c).1 =
          Except.error (AppExn.pymysqlError { cls := cls, args := [Value.vInt code, m] })) ∧
    (BackendDatabaseManager.call_procedure proc params c).1 =
      Except.error (AppExn.pymysqlError { cls := cls, args := [Value.vInt code, m] }) := by
  refine ⟨fun h => ?_, fun h => ?_, ?_⟩
  · simp [DatabaseManager.call_procedure, hrun, handle_two_args, h]
  · simp [DatabaseManager.call_procedure, hrun, handle_two_args, h]
  · simp [BackendDatabaseManager.call_procedure, hrun]

/-- Witness for C1 at the concrete code-1001 failure. -/
theorem call_procedure_sqlstate_mapping_witness :
    (DatabaseManager.call_procedure failing1001Proc [] unitConn).1 =
      Except.error (AppExn.databaseError "Custom check failed") :=
  (call_procedure_sqlstate_mapping failing1001Proc [] unitConn () PyCls.operationalError
      1001 (Value.vStr "Custom check failed") rfl).1 (Or.inl rfl)

/-! ### C2 -/

/-- C2: `execute_non_query` and `call_procedure` (src/db_util.py) roll the
transaction back before re-raising whenever the statement or CALL raises a
`pymysql.Error` - the connection ends with both its committed and its
pending state equal to the state committed before the call, and the only
actions taken are the execute and the rollback - and commit on success. -/
theorem non_query_and_procedure_txn_discipline {σ : Type} (stmt : Stmt σ) (proc : Proc σ)
    (params : List Value) (c : Conn σ) :
    (∀ s e, stmt c.pending = Except.error (s, e) →
        DatabaseManager.execute_non_query stmt c =
          (Except.error (DatabaseManager.handle_database_error e),
           { committed := c.committed, pending := c.committed },
           [DbAction.executeStmt, DbAction.rollbackTxn])) ∧
    (∀ s n, stmt c.pending = Except.ok (s, n) →
        DatabaseManager.execute_non_query stmt c =
          (Except.ok n, { committed := s, pending := s },
           [DbAction.executeStmt, DbAction.commitTxn])) ∧
    (∀ s e, proc.run c.pending params = Except.error (s, e) →
        DatabaseManager.call_procedure proc params c =
          (Except.error (DatabaseManager.handle_database_error e),
           { committed := c.committed, pending := c.committed },
           [DbAction.executeStmt, DbAction.rollbackTxn])) ∧
    (∀ s outs rsets, proc.run c.pending params = Except.ok (s, outs, rsets) →
        DatabaseManager.call_procedure proc params c =
          (Except.ok (params, collectResultSets rsets), { committed := s, pending := s },
           [DbAction.executeStmt, DbAction.commitTxn])) := by
  refine ⟨fun s e h => ?_, fun s n h => ?_, fun s e h => ?_, fun s outs rsets h => ?_⟩
  · simp [DatabaseManager.execute_non_query, h, Conn.rollback]
  · simp [DatabaseManager.execute_non_query, h, Conn.commit]
  · simp [DatabaseManager.call_procedure, h, Conn.rollback]
  · simp [DatabaseManager.call_procedure, h, Conn.commit]

/-- Witness for C2: a failing statement is rolled back (the state increment
of the failed statement is discarded), a succeeding one is committed. -/
theorem txn_discipline_witness :
    DatabaseManager.execute_non_query failingStmt1062 natConn =
      (Except.error (AppExn.pymysqlError
          { cls := PyCls.integrityError,
            args := [Value.vInt 1062, Value.vStr "Duplicate entry"] }),
       { committed := 0, pending := 0 },
       [DbAction.executeStmt, DbAction.rollbackTxn]) ∧
    DatabaseManager.execute_non_query incrStmt natConn =
      (Except.ok 1, { committed := 1, pending := 1 },
       [DbAction.executeStmt, DbAction.commitTxn]) := by
  constructor
  · have h := (non_query_and_procedure_txn_discipline failingStmt1062 incrProc [] natConn).1
      7 _ rfl
    simpa using h
  · have h := (non_query_and_procedure_txn_discipline incrStmt incrProc [] natConn).2.1
      1 1 rfl
    simpa using h

/-! ### C3 -/

/-- C3 (code bug evaluated): at a procedure that assigns 42 to its single
OUT parameter, the src/db_util.py wrapper returns the original parameter
tuple (None) - pymysql.callproc never reads the session variables back,
so OUT positions do not reflect the assigned values - while the
src/backend/db_util.py variant returns the updated values but then loses
every result set of the call. -/
theorem call_procedure_out_params_stale :
    (DatabaseManager.call_procedure outParamProc [Value.vNull] unitConn).1 =
      Except.ok ([Value.vNull], [[[("x", Value.vInt 1)]]]) ∧
    [Value.vNull] ≠ [Value.vInt 42] ∧
    (BackendDatabaseManager.call_procedure outParamProc [Value.vNull] unitConn).1 =
      Except.ok ([Value.vInt 42], []) := by
  exact ⟨rfl, by decide, rfl⟩

/-! ### String lemmas for the drug-name extraction -/

theorem charIndex_of_not_mem {ch : Char} : ∀ {l : List Char}, ch ∉ l → charIndex ch l = none := by
  intro l h
  induction l with
  | nil => rfl
  | cons a as ih =>
      rw [List.mem_cons, not_or] at h
      have ha : ¬ a = ch := fun hh => h.1 hh.symm
      simp [charIndex, ha, ih h.2]

theorem charIndex_append_cons {ch : Char} {pre rest : List Char} (h : ch ∉ pre) :
    charIndex ch (pre ++ ch :: rest) = some pre.length := by
  induction pre with
  | nil => simp [charIndex]
  | cons a as ih =>
      rw [List.mem_cons, not_or] at h
      have ha : ¬ a = ch := fun hh => h.1 hh.symm
      simp [charIndex, ha, ih h.2]

theorem charIndex_some_decomp {ch : Char} : ∀ {l : List Char} {i : Nat},
    charIndex ch l = some i →
      ∃ pre rest, l = pre ++ ch :: rest ∧ pre.length = i ∧ ch ∉ pre := by
  intro l
  induction l with
  | nil => intro i h; simp [charIndex] at h
  | cons a as ih =>
      intro i h
      by_cases ha : a = ch
      · subst ha
        simp [charIndex] at h
        exact ⟨[], as, by simp, by simp [h], by simp⟩
      · simp [charIndex, ha] at h
        obtain ⟨j, hj, hji⟩ := h
        obtain ⟨pre, rest, hl, hlen, hmem⟩ := ih hj
        refine ⟨a :: pre, rest, by simp [hl], by simp [hlen, hji], ?_⟩
        rw [List.mem_cons, not_or]
        exact ⟨fun hh => ha hh.symm, hmem⟩

/-- When the message splits as `pre "` mid `"` post with no quote in `pre`
or `mid`, the extraction returns exactly the text between the first pair
of double quotes. -/
theorem extractDrugName_quoted (pre mid post : List Char)
    (hpre : quoteChar ∉ pre) (hmid : quoteChar ∉ mid) :
    extractDrugName (String.mk (pre ++ quoteChar :: (mid ++ quoteChar :: post))) =
      String.mk mid := by
  have hdrop : (pre ++ quoteChar :: (mid ++ quoteChar :: post)).drop (pre.length + 1)
      = mid ++ quoteChar :: post := by
    rw [show pre ++ quoteChar :: (mid ++ quoteChar :: post)
          = (pre ++ [quoteChar]) ++ (mid ++ quoteChar :: post) by simp]
    rw [show pre.length + 1 = (pre ++ [quoteChar]).length by simp]
    exact List.drop_left _ _
  simp only [extractDrugName,
    show (String.mk (pre ++ quoteChar :: (mid ++ quoteChar :: post))).toList
      = pre ++ quoteChar :: (mid ++ quoteChar :: post) from rfl,
    charIndex_append_cons hpre, hdrop, charIndex_append_cons hmid, List.take_left]

/-- When the message holds at most one double quote, the extraction
returns "Unknown". -/
theorem extractDrugName_no_pair (cs : List Char) (h : cs.count quoteChar ≤ 1) :
    extractDrugName (String.mk cs) = "Unknown" := by
  cases hidx : charIndex quoteChar cs with
  | none =>
      simp only [extractDrugName, show (String.mk cs).toList = cs from rfl, hidx]
  | some i =>
      obtain ⟨pre, rest, hl, hlen, hpre⟩ := charIndex_some_decomp hidx
      have hcount : rest.count quoteChar = 0 := by
        subst hl
        rw [List.count_append, List.count_cons] at h
        have hzero : pre.count quoteChar = 0 := List.count_eq_zero.mpr hpre
        simp [hzero] at h
        omega
      have hrest : quoteChar ∉ rest := List.count_eq_zero.mp hcount
      have hdrop : cs.drop (i + 1) = rest := by
        subst hlen
        rw [hl, show pre ++ quoteChar :: rest = (pre ++ [quoteChar]) ++ rest by simp]
        rw [show pre.length + 1 = (pre ++ [quoteChar]).length by simp]
        exact List.drop_left _ _
      simp only [extractDrugName, show (String.mk cs).toList = cs from rfl, hidx,
        hdrop, charIndex_of_not_mem hrest]

/-! ### C4 -/

/-- C4: `pay_bill` returns `success := false` without raising when the
UPDATE affects zero rows; on an insufficient-stock `DatabaseError` it
returns (not raises) the inventory_shortfall dictionary whose drug_name
is the text between the first pair of double quotes of the message (or
"Unknown" when no such pair exists); any other `DatabaseError` is
re-raised as a `DatabaseError`; on success it returns
`success := true`. -/
theorem pay_bill_behaviour {σ : Type} (stmt : Stmt σ) (pid : Value) (c : Conn σ) :
    (∀ s, stmt c.pending = Except.ok (s, 0) →
        (HospitalService.pay_bill stmt pid c).1 =
          PayOutcome.ret
            { success := false,
              message := "Payment ID " ++ pyStr pid ++ " not found or already paid" }) ∧
    (∀ s n, stmt c.pending = Except.ok (s, n) → n ≠ 0 →
        (HospitalService.pay_bill stmt pid c).1 =
          PayOutcome.ret { success := true, message := "Payment processed successfully" }) ∧
    (∀ s e m, stmt c.pending = Except.error (s, e) →
        DatabaseManager.handle_database_error e = AppExn.databaseError m →
        strIn insufficientStockNeedle m = true →
        (HospitalService.pay_bill stmt pid c).1 =
          PayOutcome.ret
            { success := false, message := m,
              drug_name := some (extractDrugName m),
              error_type := some "inventory_shortfall" }) ∧
    (∀ s e m, stmt c.pending = Except.error (s, e) →
        DatabaseManager.handle_database_error e = AppExn.databaseError m →
        strIn insufficientStockNeedle m = false →
        (HospitalService.pay_bill stmt pid c).1 =
          PayOutcome.raiseExn (AppExn.databaseError ("Payment processing failed: " ++ m))) ∧
    (∀ pre mid post : List Char, quoteChar ∉ pre → quoteChar ∉ mid →
        extractDrugName (String.mk (pre ++ quoteChar :: (mid ++ quoteChar :: post))) =
          String.mk mid) ∧
    (∀ cs : List Char, cs.count quoteChar ≤ 1 →
        extractDrugName (String.mk cs) = "Unknown") := by
  refine ⟨fun s h => ?_, fun s n h hn => ?_, fun s e m h hh hc => ?_,
    fun s e m h hh hc => ?_, extractDrugName_quoted, extractDrugName_no_pair⟩
  · simp [HospitalService.pay_bill, DatabaseManager.execute_non_query, h]
  · simp [HospitalService.pay_bill, DatabaseManager.execute_non_query, h, hn]
  · simp [HospitalService.pay_bill, DatabaseManager.execute_non_query, h, hh, hc]
  · simp [HospitalService.pay_bill, DatabaseManager.execute_non_query, h, hh, hc]

/-- The UPDATE of pay_bill failing through the inventory trigger with the
documented insufficient-stock message (custom code 1001). -/
def shortfallStmt : Stmt Unit := fun s =>
  Except.error (s,
    { cls := PyCls.operationalError,
      args := [Value.vInt 1001,
               Value.vStr "Insufficient stock for drug \"Aspirin\". Required: 5, Available: 2"] })

/-- Witness for C4 at the concrete insufficient-stock failure: the method
returns the shortfall dictionary with drug_name "Aspirin". -/
theorem pay_bill_behaviour_witness :
    (HospitalService.pay_bill shortfallStmt (Value.vInt 9) unitConn).1 =
      PayOutcome.ret
        { success := false,
          message := "Insufficient stock for drug \"Aspirin\". Required: 5, Available: 2",
          drug_name := some "Aspirin",
          error_type := some "inventory_shortfall" } := by
  have h := (pay_bill_behaviour shortfallStmt (Value.vInt 9) unitConn).2.2.1 ()
    { cls := PyCls.operationalError,
      args := [Value.vInt 1001,
               Value.vStr "Insufficient stock for drug \"Aspirin\". Required: 5, Available: 2"] }
    "Insufficient stock for drug \"Aspirin\". Required: 5, Available: 2"
    rfl rfl (by decide)
  rw [h]
  rfl

/-! ### C5 -/

/-- The out-parameter tails the counter oracle hands back from call `k`
on, for `n` consecutive calls. -/
def idsFrom (f : Nat → List Value) : Nat → Nat → List Value
  | _, 0 => []
  | k, n + 1 => (f k).getLastD Value.vNull :: idsFrom f (k + 1) n

theorem idsFrom_eq_range (f : Nat → List Value) :
    ∀ (n k : Nat), idsFrom f k n =
      (List.range n).map (fun i => (f (k + i)).getLastD Value.vNull) := by
  intro n
  induction n with
  | zero => intro k; simp [idsFrom]
  | succ n ih =>
      intro k
      rw [List.range_succ_eq_map]
      simp only [idsFrom, ih (k + 1), List.map_cons, List.map_map]
      congr 1
      apply List.map_congr_left
      intro i _
      have hik : k + 1 + i = k + (i + 1) := by omega
      simp [Function.comp, hik]

/-- Against an always-succeeding oracle, the diagnosis loop issues one
call per entry in order and collects one id per entry. -/
theorem submit_diagnosis_loop_counter (f : Nat → List Value) (reg : Value) :
    ∀ (drugs : List DrugEntry) (k : Nat),
      HospitalService.submit_diagnosis_loop (counterOracle f) reg drugs k =
        (Except.ok (idsFrom f k drugs.length), k + drugs.length,
         drugs.map (fun d => ("sp_finish_consultation", consultationParams reg d))) := by
  intro drugs
  induction drugs with
  | nil => intro k; simp [HospitalService.submit_diagnosis_loop, idsFrom]
  | cons d rest ih =>
      intro k
      simp only [HospitalService.submit_diagnosis_loop, counterOracle, ih (k + 1), idsFrom,
        List.map_cons, List.length_cons, Prod.mk.injEq]
      exact ⟨by simp, by omega, by simp⟩

/-- C5: `submit_diagnosis` calls sp_finish_consultation exactly once per
entry of the drug list, in list order, with the missing optional keys
defaulted (dosage 按医嘱, duration_days 7, notes empty), and on success
returns exactly one payment id per drug - the last out-parameter of the
corresponding call - in the same order. -/
theorem submit_diagnosis_one_call_per_drug (f : Nat → List Value) (reg : Value)
    (drugs : List DrugEntry) (k : Nat) :
    HospitalService.submit_diagnosis (counterOracle f) reg drugs k =
      (Except.ok ((List.range drugs.length).map (fun i => (f (k + i)).getLastD Value.vNull)),
       k + drugs.length,
       drugs.map (fun d => ("sp_finish_consultation", consultationParams reg d))) ∧
    ((List.range drugs.length).map (fun i => (f (k + i)).getLastD Value.vNull)).length
      = drugs.length := by
  constructor
  · simp [HospitalService.submit_diagnosis, submit_diagnosis_loop_counter, idsFrom_eq_range]
  · simp

/-! ### C9 -/

/-- The diagnosis loop is compositional: after a successful prefix the
remaining entries continue from the state the prefix reached, the ids and
call traces concatenate, and a failure in the remainder discards the
prefix ids. -/
theorem submit_diagnosis_loop_append {σ : Type} (cp : CallProc σ) (reg : Value) :
    ∀ (pre rest : List DrugEntry) (st : σ) (ids : List Value) (st1 : σ)
      (tr : List (String × List Value)),
      HospitalService.submit_diagnosis_loop cp reg pre st = (Except.ok ids, st1, tr) →
      ((∀ ids2 st2 tr2,
          HospitalService.submit_diagnosis_loop cp reg rest st1 = (Except.ok ids2, st2, tr2) →
          HospitalService.submit_diagnosis_loop cp reg (pre ++ rest) st =
            (Except.ok (ids ++ ids2), st2, tr ++ tr2)) ∧
       (∀ e st2 tr2,
          HospitalService.submit_diagnosis_loop cp reg rest st1 = (Except.error e, st2, tr2) →
          HospitalService.submit_diagnosis_loop cp reg (pre ++ rest) st =
            (Except.error e, st2, tr ++ tr2))) := by
  intro pre
  induction pre with
  | nil =>
      intro rest st ids st1 tr h
      simp only [HospitalService.submit_diagnosis_loop, Prod.mk.injEq, Except.ok.injEq] at h
      obtain ⟨h1, h2, h3⟩ := h
      subst h1; subst h2; subst h3
      constructor
      · intro ids2 st2 tr2 h2
        simpa using h2
      · intro e st2 tr2 h2
        simpa using h2
  | cons d pre ih =>
      intro rest st ids st1 tr h
      rcases hcall : cp (consultationParams reg d) st with ⟨r, stx⟩
      cases r with
      | error e0 =>
          simp only [HospitalService.submit_diagnosis_loop, hcall] at h
          simp at h
      | ok pr =>
          obtain ⟨outs, rs⟩ := pr
          rcases hrec : HospitalService.submit_diagnosis_loop cp reg pre stx with ⟨r2, st2x, tr2x⟩
          cases r2 with
          | error e0 =>
              simp only [HospitalService.submit_diagnosis_loop, hcall, hrec] at h
              simp at h
          | ok ids0 =>
              simp only [HospitalService.submit_diagnosis_loop, hcall, hrec, Prod.mk.injEq,
                Except.ok.injEq] at h
              obtain ⟨h1, h2, h3⟩ := h
              subst h2
              obtain ⟨ihok, iherr⟩ := ih rest stx ids0 st2x tr2x hrec
              constructor
              · intro ids2 st2 tr2 hr
                have hx := ihok ids2 st2 tr2 hr
                simp only [List.cons_append, HospitalService.submit_diagnosis_loop, hcall,
                  List.append_eq]
                rw [hx, ← h1, ← h3]
                simp
              · intro e st2 tr2 hr
                have hx := iherr e st2 tr2 hr
                simp only [List.cons_append, HospitalService.submit_diagnosis_loop, hcall,
                  List.append_eq]
                rw [hx, ← h3]
                simp

/-- After a non-empty successful prefix of diagnosis calls through the
real wrapper, the connection has everything committed (each call commits
independently). -/
theorem submit_diagnosis_db_loop_committed {σ : Type} (proc : Proc σ) (reg : Value) :
    ∀ (pre : List DrugEntry) (c : Conn σ) (ids : List Value) (c1 : Conn σ)
      (tr : List (String × List Value)),
      pre ≠ [] →
      HospitalService.submit_diagnosis_loop (dbCallProc proc) reg pre c =
        (Except.ok ids, c1, tr) →
      c1.pending = c1.committed := by
  intro pre
  induction pre with
  | nil => intro c ids c1 tr hne _; exact absurd rfl hne
  | cons d pre ih =>
      intro c ids c1 tr _ h
      rcases hrun : proc.run c.pending (consultationParams reg d) with ⟨s, e⟩ | ⟨s, outsrs⟩
      · simp only [HospitalService.submit_diagnosis_loop, dbCallProc,
          DatabaseManager.call_procedure, hrun] at h
        simp at h
      · obtain ⟨outs, rs⟩ := outsrs
        by_cases hp : pre = []
        · subst hp
          simp only [HospitalService.submit_diagnosis_loop, dbCallProc,
            DatabaseManager.call_procedure, hrun, Prod.mk.injEq, Except.ok.injEq] at h
          obtain ⟨_, h2, _⟩ := h
          rw [← h2]
          rfl
        · rcases hrec : HospitalService.submit_diagnosis_loop (dbCallProc proc) reg pre
              (Conn.commit { c with pending := s }) with ⟨r2, c2, tr2⟩
          cases r2 with
          | error e0 =>
              simp only [HospitalService.submit_diagnosis_loop, dbCallProc,
                DatabaseManager.call_procedure, hrun, hrec] at h
              simp at h
          | ok ids0 =>
              simp only [HospitalService.submit_diagnosis_loop, dbCallProc,
                DatabaseManager.call_procedure, hrun, hrec, Prod.mk.injEq,
                Except.ok.injEq] at h
              obtain ⟨_, h2, _⟩ := h
              rw [← h2]
              exact ih (Conn.commit { c with pending := s }) ids0 c2 tr2 hp hrec

/-- C9: `submit_diagnosis` is not atomic across the drug list.  Each
`sp_finish_consultation` call commits inside `call_procedure`, so when
the call after a successful prefix raises, the prefix work stays
committed (the connection is exactly the one the prefix left, fully
committed), the wrapped exception propagates, and the payment ids
collected for the prefix are discarded, never returned. -/
theorem submit_diagnosis_partial_commit {σ : Type} (proc : Proc σ) (reg : Value)
    (pre post : List DrugEntry) (d : DrugEntry) (c c1 : Conn σ) (ids : List Value)
    (tr : List (String × List Value)) (s : σ) (e : PyErr)
    (hpre : HospitalService.submit_diagnosis_db proc reg pre c = (Except.ok ids, c1, tr))
    (hfail : proc.run c1.pending (consultationParams reg d) = Except.error (s, e)) :
    HospitalService.submit_diagnosis_db proc reg (pre ++ d :: post) c =
      (Except.error (diagnosisWrap (DatabaseManager.handle_database_error e)),
       { committed := c1.committed, pending := c1.committed },
       tr ++ [("sp_finish_consultation", consultationParams reg d)]) ∧
    (pre ≠ [] →
      ({ committed := c1.committed, pending := c1.committed } : Conn σ) = c1) := by
  have hloop : HospitalService.submit_diagnosis_loop (dbCallProc proc) reg pre c =
      (Except.ok ids, c1, tr) := by
    rcases hl : HospitalService.submit_diagnosis_loop (dbCallProc proc) reg pre c
      with ⟨r, cx, trx⟩
    cases r with
    | ok ids0 =>
        simp only [HospitalService.submit_diagnosis_db, HospitalService.submit_diagnosis, hl,
          Prod.mk.injEq, Except.ok.injEq] at hpre
        obtain ⟨h1, h2, h3⟩ := hpre
        subst h1; subst h2; subst h3
        rfl
    | error e0 =>
        simp only [HospitalService.submit_diagnosis_db, HospitalService.submit_diagnosis, hl] at hpre
        simp at hpre
  have hcallfail : HospitalService.submit_diagnosis_loop (dbCallProc proc) reg (d :: post) c1 =
      (Except.error (DatabaseManager.handle_database_error e),
       { committed := c1.committed, pending := c1.committed },
       [("sp_finish_consultation", consultationParams reg d)]) := by
    simp only [HospitalService.submit_diagnosis_loop, dbCallProc,
      DatabaseManager.call_procedure, hfail]
    rfl
  have happ := ((submit_diagnosis_loop_append (dbCallProc proc) reg pre (d :: post) c ids c1 tr
    hloop).2) (DatabaseManager.handle_database_error e) _ _ hcallfail
  constructor
  · rw [HospitalService.submit_diagnosis_db, HospitalService.submit_diagnosis, happ]
  · intro hne
    have hpc := submit_diagnosis_db_loop_committed proc reg pre c ids c1 tr hne hloop
    rw [Conn.ext_iff]
    exact ⟨rfl, hpc.symm⟩

/-- A stored procedure that succeeds on the first call and fails with the
custom code 1002 from then on; the state counts the calls that
committed. -/
def failSecondProc : Proc Nat :=
  { run := fun st _ =>
      if st = 0 then Except.ok (st + 1, [Value.vInt 77, Value.vInt 88], [])
      else Except.error (st,
        { cls := PyCls.operationalError,
          args := [Value.vInt 1002, Value.vStr "Registration already completed"] }) }

def drugA : DrugEntry := { drug_id := Value.vInt 1, quantity := Value.vInt 2 }

def drugB : DrugEntry := { drug_id := Value.vInt 3, quantity := Value.vInt 4 }

/-- Witness for C9: with a two-drug list whose second call fails, the
first drug stays committed (state 1), the wrapped DatabaseError
propagates, and no payment id is returned. -/
theorem submit_diagnosis_partial_commit_witness :
    HospitalService.submit_diagnosis_db failSecondProc (Value.vInt 5) [drugA, drugB] ⟨0, 0⟩ =
      (Except.error (AppExn.databaseError
          "Diagnosis submission failed: Registration already completed"),
       ⟨1, 1⟩,
       [("sp_finish_consultation", consultationParams (Value.vInt 5) drugA),
        ("sp_finish_consultation", consultationParams (Value.vInt 5) drugB)]) := by
  have h := (submit_diagnosis_partial_commit failSecondProc (Value.vInt 5) [drugA] []
    drugB ⟨0, 0⟩ ⟨1, 1⟩ [Value.vNull]
    [("sp_finish_consultation", consultationParams (Value.vInt 5) drugA)] 1
    { cls := PyCls.operationalError,
      args := [Value.vInt 1002, Value.vStr "Registration already completed"] }
    rfl rfl).1
  exact h

/-! ### C6 -/

/-- C6: for every listed service method taking a user-supplied argument,
the SQL text handed to the database layer is identical for any two
argument values (a fixed constant), and the argument flows only through
the params tuple of the parameterized call. -/
theorem service_sql_constant :
    (∀ a b : Value, (HospitalService.get_doctors_by_dept_request a).sql =
        (HospitalService.get_doctors_by_dept_request b).sql ∧
      (HospitalService.get_doctors_by_dept_request a).params = [a]) ∧
    (∀ a b : Value, (HospitalService.get_waiting_list_request a).sql =
        (HospitalService.get_waiting_list_request b).sql ∧
      (HospitalService.get_waiting_list_request a).params = [a]) ∧
    (∀ a b : Value, (HospitalService.get_pending_payments_request a).sql =
        (HospitalService.get_pending_payments_request b).sql ∧
      (HospitalService.get_pending_payments_request a).params = [a]) ∧
    (∀ a b : Value, (HospitalService.authenticate_patient_request a).sql =
        (HospitalService.authenticate_patient_request b).sql ∧
      (HospitalService.authenticate_patient_request a).params = [a]) ∧
    (∀ a b : Value, (HospitalService.pay_bill_update_request a).sql =
        (HospitalService.pay_bill_update_request b).sql ∧
      (HospitalService.pay_bill_update_request a).params = [a]) ∧
    (∀ a b : Value, (HospitalService.get_low_stock_drugs_request a).sql =
        (HospitalService.get_low_stock_drugs_request b).sql ∧
      (HospitalService.get_low_stock_drugs_request a).params = [a]) := by
  refine ⟨?_, ?_, ?_, ?_, ?_, ?_⟩ <;> intro a b <;> exact ⟨rfl, rfl⟩

/-! ### C7 -/

/-- C7: `get_waiting_list` returns exactly the (patient-joined)
registrations of the given doctor with status 1, sorted by
registration_date then registration_time ascending; a registration with
any other status never contributes a row. -/
theorem get_waiting_list_correct (db : HospitalDb) (doctor_id : Int) :
    (∀ w, w ∈ HospitalService.get_waiting_list db doctor_id ↔
        ∃ r ∈ db.registrations, ∃ p ∈ db.patients,
          r.doctor_id = doctor_id ∧ r.status = 1 ∧ p.patient_id = r.patient_id ∧
          w = projWaiting r p) ∧
    List.Sorted waitingLE (HospitalService.get_waiting_list db doctor_id) ∧
    (∀ w ∈ HospitalService.get_waiting_list db doctor_id, w.status = 1) := by
  refine ⟨fun w => ?_, List.sorted_insertionSort waitingLE _, fun w hw => ?_⟩
  · simp only [HospitalService.get_waiting_list, List.mem_insertionSort, joinedWaitingRows,
      List.mem_flatMap, List.mem_filter, List.mem_map, decide_eq_true_eq, beq_iff_eq]
    constructor
    · rintro ⟨r, ⟨hr, hdoc, hst⟩, p, ⟨hp, hpid⟩, hw⟩
      exact ⟨r, hr, p, hp, hdoc, hst, hpid, hw.symm⟩
    · rintro ⟨r, hr, p, hp, hdoc, hst, hpid, hw⟩
      exact ⟨r, ⟨hr, hdoc, hst⟩, p, ⟨hp, hpid⟩, hw.symm⟩
  · simp only [HospitalService.get_waiting_list, List.mem_insertionSort, joinedWaitingRows,
      List.mem_flatMap, List.mem_filter, List.mem_map, decide_eq_true_eq, beq_iff_eq] at hw
    obtain ⟨r, ⟨hr, hdoc, hst⟩, p, hp, hw⟩ := hw
    rw [← hw]
    simpa [projWaiting] using hst

/-! ### C8 -/

/-- C8: `get_low_stock_drugs` returns exactly the drugs with
stored_quantity strictly below the threshold, sorted ascending by
stored_quantity; a drug whose stored_quantity equals the threshold is
never returned; the Python default threshold is 10. -/
theorem get_low_stock_drugs_correct (db : HospitalDb) (t : Int) :
    (∀ x, x ∈ HospitalService.get_low_stock_drugs db t ↔
        ∃ d ∈ db.drugs, d.stored_quantity < t ∧ x = projLowStock d) ∧
    List.Sorted lowStockLE (HospitalService.get_low_stock_drugs db t) ∧
    (∀ d ∈ db.drugs, d.stored_quantity = t →
        projLowStock d ∉ HospitalService.get_low_stock_drugs db t) ∧
    HospitalService.get_low_stock_drugs db = HospitalService.get_low_stock_drugs db 10 := by
  have hmem : ∀ x, x ∈ HospitalService.get_low_stock_drugs db t ↔
      ∃ d ∈ db.drugs, d.stored_quantity < t ∧ x = projLowStock d := by
    intro x
    simp only [HospitalService.get_low_stock_drugs, List.mem_insertionSort, List.mem_map,
      List.mem_filter, decide_eq_true_eq]
    constructor
    · rintro ⟨d, ⟨hd, hq⟩, hx⟩
      exact ⟨d, hd, hq, hx.symm⟩
    · rintro ⟨d, hd, hq, hx⟩
      exact ⟨d, ⟨hd, hq⟩, hx.symm⟩
  refine ⟨hmem, List.sorted_insertionSort lowStockLE _, fun d hd hq hmemd => ?_, rfl⟩
  obtain ⟨d2, _, hq2, hproj⟩ := (hmem (projLowStock d)).1 hmemd
  have : d2.stored_quantity = d.stored_quantity := by
    have := congrArg LowStockRow.stored_quantity hproj
    simpa [projLowStock] using this.symm
  omega

/-! ### C10 generic lemmas about the guarded delete -/

/-- When the dependent count is positive the method returns at once:
no DELETE is executed, the connection is untouched. -/
theorem deleteWithCheck_guard {σ : Type} (depCount : σ → Nat) (delStmt : Stmt σ)
    (mh : Nat → String) (mn mo m1 wm : String) (c : Conn σ)
    (h : 0 < depCount c.pending) :
    deleteWithCheck depCount delStmt mh mn mo m1 wm c =
      (DelOutcome.ret { success := false, message := mh (depCount c.pending) }, c, []) := by
  simp [deleteWithCheck, DatabaseManager.execute_query, h]

/-- When the guard passes but the DELETE fails with IntegrityError 1451,
the method returns success false and the transaction is rolled back: the
committed state is unchanged. -/
theorem deleteWithCheck_1451 {σ : Type} (depCount : σ → Nat) (delStmt : Stmt σ)
    (mh : Nat → String) (mn mo m1 wm : String) (c : Conn σ) (s : σ) (e : PyErr)
    (h0 : depCount c.pending = 0)
    (hdel : delStmt c.pending = Except.error (s, e))
    (hcls : e.cls = PyCls.integrityError)
    (hcode : e.args.headD Value.vNull = Value.vInt 1451) :
    deleteWithCheck depCount delStmt mh mn mo m1 wm c =
      (DelOutcome.ret { success := false, message := m1 },
       { committed := c.committed, pending := c.committed },
       [DbAction.executeStmt, DbAction.rollbackTxn]) := by
  have hcode2 : e.args.head?.getD Value.vNull = Value.vInt 1451 := by
    rw [← List.headD_eq_head?]
    exact hcode
  simp [deleteWithCheck, DatabaseManager.execute_query, h0,
    DatabaseManager.execute_non_query, hdel, handle_head_1451 e hcode, hcls, hcode2,
    Conn.rollback]

/-- When the guard passes and the DELETE succeeds affecting zero rows,
the method reports not-found with success false and raises nothing. -/
theorem deleteWithCheck_zero_rows {σ : Type} (depCount : σ → Nat) (delStmt : Stmt σ)
    (mh : Nat → String) (mn mo m1 wm : String) (c : Conn σ) (s : σ)
    (h0 : depCount c.pending = 0)
    (hdel : delStmt c.pending = Except.ok (s, 0)) :
    deleteWithCheck depCount delStmt mh mn mo m1 wm c =
      (DelOutcome.ret { success := false, message := mn },
       { committed := s, pending := s },
       [DbAction.executeStmt, DbAction.commitTxn]) := by
  simp [deleteWithCheck, DatabaseManager.execute_query, h0,
    DatabaseManager.execute_non_query, hdel, Conn.commit]

/-- The guarded delete never raises an IntegrityError with code 1451,
whatever the DELETE statement does. -/
theorem deleteWithCheck_never_1451 {σ : Type} (depCount : σ → Nat) (delStmt : Stmt σ)
    (mh : Nat → String) (mn mo m1 wm : String) (c : Conn σ) (e2 : PyErr)
    (hres : (deleteWithCheck depCount delStmt mh mn mo m1 wm c).1 =
      DelOutcome.raiseExn (AppExn.pymysqlError e2))
    (hcls : e2.cls = PyCls.integrityError) :
    e2.args.headD Value.vNull ≠ Value.vInt 1451 := by
  by_cases h0 : 0 < depCount c.pending
  · rw [deleteWithCheck_guard depCount delStmt mh mn mo m1 wm c h0] at hres
    simp at hres
  · have hz : depCount c.pending = 0 := by omega
    cases hdel : delStmt c.pending with
    | ok sn =>
        obtain ⟨s, n⟩ := sn
        by_cases hn : n = 0
        · subst hn
          rw [deleteWithCheck_zero_rows depCount delStmt mh mn mo m1 wm c s hz hdel] at hres
          simp at hres
        · simp [deleteWithCheck, DatabaseManager.execute_query, hz,
            DatabaseManager.execute_non_query, hdel, hn] at hres
    | error se =>
        obtain ⟨s, e⟩ := se
        rcases handle_cases e with ⟨m, hm⟩ | hm
        · simp [deleteWithCheck, DatabaseManager.execute_query, hz,
            DatabaseManager.execute_non_query, hdel, hm] at hres
        · by_cases hc : e.cls = PyCls.integrityError
          · by_cases hh : e.args.headD Value.vNull = Value.vInt 1451
            · have hh2 : e.args.head?.getD Value.vNull = Value.vInt 1451 := by
                rw [← List.headD_eq_head?]
                exact hh
              simp [deleteWithCheck, DatabaseManager.execute_query, hz,
                DatabaseManager.execute_non_query, hdel, hm, hc, hh2] at hres
            · have hh2 : ¬ e.args.head?.getD Value.vNull = Value.vInt 1451 := by
                rw [← List.headD_eq_head?]
                exact hh
              simp [deleteWithCheck, DatabaseManager.execute_query, hz,
                DatabaseManager.execute_non_query, hdel, hm, hc, hh2] at hres
              rw [← hres]
              exact hh
          · simp [deleteWithCheck, DatabaseManager.execute_query, hz,
              DatabaseManager.execute_non_query, hdel, hm, hc] at hres
            rw [← hres] at hcls
            simp at hcls

/-- The outcome is a returned `{success: False}` dictionary (no exception
raised). -/
def DelOutcome.retFailure : DelOutcome → Bool
  | DelOutcome.ret d => !d.success
  | DelOutcome.raiseExn _ => false

theorem delete_patient_with_eq (delStmt : Stmt HospitalDb) (pid : Int) (c : Conn HospitalDb) :
    HospitalService.delete_patient_with delStmt pid c =
      deleteWithCheck (fun s => countRegistrationsOfPatient s pid) delStmt
        patientHasDepsMsg (patientNotFoundMsg pid) patientDeletedMsg patientFkMsg
        patientWrapMsg c := rfl

theorem delete_patient_eq (pid : Int) (c : Conn HospitalDb) :
    HospitalService.delete_patient pid c =
      HospitalService.delete_patient_with (deletePatientStmt pid) pid c := rfl

theorem delete_doctor_with_eq (delStmt : Stmt HospitalDb) (did : Int) (c : Conn HospitalDb) :
    HospitalService.delete_doctor_with delStmt did c =
      deleteWithCheck (fun s => countRegistrationsOfDoctor s did) delStmt
        doctorHasDepsMsg (doctorNotFoundMsg did) doctorDeletedMsg doctorFkMsg
        doctorWrapMsg c := rfl

theorem delete_doctor_eq (did : Int) (c : Conn HospitalDb) :
    HospitalService.delete_doctor did c =
      HospitalService.delete_doctor_with (deleteDoctorStmt did) did c := rfl

theorem delete_department_with_eq (delStmt : Stmt HospitalDb) (did : Int)
    (c : Conn HospitalDb) :
    HospitalService.delete_department_with delStmt did c =
      deleteWithCheck (fun s => countDoctorsOfDepartment s did) delStmt
        departmentHasDepsMsg (departmentNotFoundMsg did) departmentDeletedMsg departmentFkMsg
        departmentWrapMsg c := rfl

theorem delete_department_eq (did : Int) (c : Conn HospitalDb) :
    HospitalService.delete_department did c =
      HospitalService.delete_department_with (deleteDepartmentStmt did) did c := rfl

theorem delete_drug_with_eq (delStmt : Stmt HospitalDb) (gid : Int) (c : Conn HospitalDb) :
    HospitalService.delete_drug_with delStmt gid c =
      deleteWithCheck (fun s => countPrescriptionsOfDrug s gid) delStmt
        drugHasDepsMsg (drugNotFoundMsg gid) drugDeletedMsg drugFkMsg
        drugWrapMsg c := rfl

theorem delete_drug_eq (gid : Int) (c : Conn HospitalDb) :
    HospitalService.delete_drug gid c =
      HospitalService.delete_drug_with (deleteDrugStmt gid) gid c := rfl

theorem delete_patient_props (c : Conn HospitalDb) (pid : Int) :
    (0 < countRegistrationsOfPatient c.pending pid →
      HospitalService.delete_patient pid c =
        ((HospitalService.delete_patient pid c).1, c, []) ∧
      (HospitalService.delete_patient pid c).1.retFailure = true) ∧
    (∀ delStmt s e, countRegistrationsOfPatient c.pending pid = 0 →
      delStmt c.pending = Except.error (s, e) →
      e.cls = PyCls.integrityError →
      e.args.headD Value.vNull = Value.vInt 1451 →
      (HospitalService.delete_patient_with delStmt pid c).1.retFailure = true ∧
      (HospitalService.delete_patient_with delStmt pid c).2.1 =
        { committed := c.committed, pending := c.committed }) ∧
    (countRegistrationsOfPatient c.pending pid = 0 →
      (c.pending.patients.filter (fun p => p.patient_id == pid)).length = 0 →
      (HospitalService.delete_patient pid c).1.retFailure = true) ∧
    (∀ delStmt e2, (HospitalService.delete_patient_with delStmt pid c).1 =
        DelOutcome.raiseExn (AppExn.pymysqlError e2) →
      e2.cls = PyCls.integrityError →
      e2.args.headD Value.vNull ≠ Value.vInt 1451) := by
  refine ⟨?_, ?_, ?_, ?_⟩
  · intro h
    have heq := deleteWithCheck_guard (fun s => countRegistrationsOfPatient s pid)
      (deletePatientStmt pid) patientHasDepsMsg (patientNotFoundMsg pid) patientDeletedMsg
      patientFkMsg patientWrapMsg c h
    rw [delete_patient_eq, delete_patient_with_eq, heq]
    exact ⟨rfl, rfl⟩
  · intro delStmt s e h0 hdel hcls hcode
    have heq := deleteWithCheck_1451 (fun s2 => countRegistrationsOfPatient s2 pid)
      delStmt patientHasDepsMsg (patientNotFoundMsg pid) patientDeletedMsg
      patientFkMsg patientWrapMsg c s e h0 hdel hcls hcode
    rw [delete_patient_with_eq, heq]
    exact ⟨rfl, rfl⟩
  · intro h0 hrow
    have hguard : ¬ 0 < (c.pending.registrations.filter
        (fun r => r.patient_id == pid)).length := by
      unfold countRegistrationsOfPatient at h0
      omega
    have hdel : deletePatientStmt pid c.pending = Except.ok
        (({ c.pending with
              patients := c.pending.patients.filter (fun p => !(p.patient_id == pid)) } :
            HospitalDb), 0) := by
      simp only [deletePatientStmt, if_neg hguard, hrow]
    have heq := deleteWithCheck_zero_rows (fun s => countRegistrationsOfPatient s pid)
      (deletePatientStmt pid) patientHasDepsMsg (patientNotFoundMsg pid) patientDeletedMsg
      patientFkMsg patientWrapMsg c _ h0 hdel
    rw [delete_patient_eq, delete_patient_with_eq, heq]
    rfl
  · intro delStmt e2 hres hcls
    rw [delete_patient_with_eq] at hres
    exact deleteWithCheck_never_1451 (fun s => countRegistrationsOfPatient s pid)
      delStmt patientHasDepsMsg (patientNotFoundMsg pid) patientDeletedMsg
      patientFkMsg patientWrapMsg c e2 hres hcls

theorem delete_doctor_props (c : Conn HospitalDb) (did : Int) :
    (0 < countRegistrationsOfDoctor c.pending did →
      HospitalService.delete_doctor did c =
        ((HospitalService.delete_doctor did c).1, c, []) ∧
      (HospitalService.delete_doctor did c).1.retFailure = true) ∧
    (∀ delStmt s e, countRegistrationsOfDoctor c.pending did = 0 →
      delStmt c.pending = Except.error (s, e) →
      e.cls = PyCls.integrityError →
      e.args.headD Value.vNull = Value.vInt 1451 →
      (HospitalService.delete_doctor_with delStmt did c).1.retFailure = true ∧
      (HospitalService.delete_doctor_with delStmt did c).2.1 =
        { committed := c.committed, pending := c.committed }) ∧
    (countRegistrationsOfDoctor c.pending did = 0 →
      (c.pending.doctors.filter (fun x => x.doctor_id == did)).length = 0 →
      (HospitalService.delete_doctor did c).1.retFailure = true) ∧
    (∀ delStmt e2, (HospitalService.delete_doctor_with delStmt did c).1 =
        DelOutcome.raiseExn (AppExn.pymysqlError e2) →
      e2.cls = PyCls.integrityError →
      e2.args.headD Value.vNull ≠ Value.vInt 1451) := by
  refine ⟨?_, ?_, ?_, ?_⟩
  · intro h
    have heq := deleteWithCheck_guard (fun s => countRegistrationsOfDoctor s did)
      (deleteDoctorStmt did) doctorHasDepsMsg (doctorNotFoundMsg did) doctorDeletedMsg doctorFkMsg doctorWrapMsg c h
    rw [delete_doctor_eq, delete_doctor_with_eq, heq]
    exact ⟨rfl, rfl⟩
  · intro delStmt s e h0 hdel hcls hcode
    have heq := deleteWithCheck_1451 (fun s2 => countRegistrationsOfDoctor s2 did)
      delStmt doctorHasDepsMsg (doctorNotFoundMsg did) doctorDeletedMsg doctorFkMsg doctorWrapMsg c s e h0 hdel hcls hcode
    rw [delete_doctor_with_eq, heq]
    exact ⟨rfl, rfl⟩
  · intro h0 hrow
    have hguard : ¬ 0 < (c.pending.registrations.filter (fun r => r.doctor_id == did)).length := by
      unfold countRegistrationsOfDoctor at h0
      omega
    have hdel : deleteDoctorStmt did c.pending = Except.ok
        (({ c.pending with
              doctors := c.pending.doctors.filter (fun x => !(x.doctor_id == did)) } :
            HospitalDb), 0) := by
      simp only [deleteDoctorStmt, if_neg hguard, hrow]
    have heq := deleteWithCheck_zero_rows (fun s => countRegistrationsOfDoctor s did)
      (deleteDoctorStmt did) doctorHasDepsMsg (doctorNotFoundMsg did) doctorDeletedMsg doctorFkMsg doctorWrapMsg c _ h0 hdel
    rw [delete_doctor_eq, delete_doctor_with_eq, heq]
    rfl
  · intro delStmt e2 hres hcls
    rw [delete_doctor_with_eq] at hres
    exact deleteWithCheck_never_1451 (fun s => countRegistrationsOfDoctor s did)
      delStmt doctorHasDepsMsg (doctorNotFoundMsg did) doctorDeletedMsg doctorFkMsg doctorWrapMsg c e2 hres hcls

theorem delete_department_props (c : Conn HospitalDb) (did : Int) :
    (0 < countDoctorsOfDepartment c.pending did →
      HospitalService.delete_department did c =
        ((HospitalService.delete_department did c).1, c, []) ∧
      (HospitalService.delete_department did c).1.retFailure = true) ∧
    (∀ delStmt s e, countDoctorsOfDepartment c.pending did = 0 →
      delStmt c.pending = Except.error (s, e) →
      e.cls = PyCls.integrityError →
      e.args.headD Value.vNull = Value.vInt 1451 →
      (HospitalService.delete_department_with delStmt did c).1.retFailure = true ∧
      (HospitalService.delete_department_with delStmt did c).2.1 =
        { committed := c.committed, pending := c.committed }) ∧
    (countDoctorsOfDepartment c.pending did = 0 →
      (c.pending.registrations.filter (fun r => r.department_id == did)).length = 0 →
      (c.pending.departments.filter (fun x => x.department_id == did)).length = 0 →
      (HospitalService.delete_department did c).1.retFailure = true) ∧
    (∀ delStmt e2, (HospitalService.delete_department_with delStmt did c).1 =
        DelOutcome.raiseExn (AppExn.pymysqlError e2) →
      e2.cls = PyCls.integrityError →
      e2.args.headD Value.vNull ≠ Value.vInt 1451) := by
  refine ⟨?_, ?_, ?_, ?_⟩
  · intro h
    have heq := deleteWithCheck_guard (fun s => countDoctorsOfDepartment s did)
      (deleteDepartmentStmt did) departmentHasDepsMsg (departmentNotFoundMsg did) departmentDeletedMsg departmentFkMsg departmentWrapMsg c h
    rw [delete_department_eq, delete_department_with_eq, heq]
    exact ⟨rfl, rfl⟩
  · intro delStmt s e h0 hdel hcls hcode
    have heq := deleteWithCheck_1451 (fun s2 => countDoctorsOfDepartment s2 did)
      delStmt departmentHasDepsMsg (departmentNotFoundMsg did) departmentDeletedMsg departmentFkMsg departmentWrapMsg c s e h0 hdel hcls hcode
    rw [delete_department_with_eq, heq]
    exact ⟨rfl, rfl⟩
  · intro h0 hreg hrow
    have hguard : ¬ 0 < (c.pending.doctors.filter (fun d => d.department_id == did)).length +
        (c.pending.registrations.filter (fun r => r.department_id == did)).length := by
      unfold countDoctorsOfDepartment at h0
      omega
    have hdel : deleteDepartmentStmt did c.pending = Except.ok
        (({ c.pending with
              departments := c.pending.departments.filter (fun x => !(x.department_id == did)) } :
            HospitalDb), 0) := by
      simp only [deleteDepartmentStmt, if_neg hguard, hrow]
    have heq := deleteWithCheck_zero_rows (fun s => countDoctorsOfDepartment s did)
      (deleteDepartmentStmt did) departmentHasDepsMsg (departmentNotFoundMsg did) departmentDeletedMsg departmentFkMsg departmentWrapMsg c _ h0 hdel
    rw [delete_department_eq, delete_department_with_eq, heq]
    rfl
  · intro delStmt e2 hres hcls
    rw [delete_department_with_eq] at hres
    exact deleteWithCheck_never_1451 (fun s => countDoctorsOfDepartment s did)
      delStmt departmentHasDepsMsg (departmentNotFoundMsg did) departmentDeletedMsg departmentFkMsg departmentWrapMsg c e2 hres hcls

theorem delete_drug_props (c : Conn HospitalDb) (gid : Int) :
    (0 < countPrescriptionsOfDrug c.pending gid →
      HospitalService.delete_drug gid c =
        ((HospitalService.delete_drug gid c).1, c, []) ∧
      (HospitalService.delete_drug gid c).1.retFailure = true) ∧
    (∀ delStmt s e, countPrescriptionsOfDrug c.pending gid = 0 →
      delStmt c.pending = Except.error (s, e) →
      e.cls = PyCls.integrityError →
      e.args.headD Value.vNull = Value.vInt 1451 →
      (HospitalService.delete_drug_with delStmt gid c).1.retFailure = true ∧
      (HospitalService.delete_drug_with delStmt gid c).2.1 =
        { committed := c.committed, pending := c.committed }) ∧
    (countPrescriptionsOfDrug c.pending gid = 0 →
      (c.pending.drugs.filter (fun x => x.drug_id == gid)).length = 0 →
      (HospitalService.delete_drug gid c).1.retFailure = true) ∧
    (∀ delStmt e2, (HospitalService.delete_drug_with delStmt gid c).1 =
        DelOutcome.raiseExn (AppExn.pymysqlError e2) →
      e2.cls = PyCls.integrityError →
      e2.args.headD Value.vNull ≠ Value.vInt 1451) := by
  refine ⟨?_, ?_, ?_, ?_⟩
  · intro h
    have heq := deleteWithCheck_guard (fun s => countPrescriptionsOfDrug s gid)
      (deleteDrugStmt gid) drugHasDepsMsg (drugNotFoundMsg gid) drugDeletedMsg drugFkMsg drugWrapMsg c h
    rw [delete_drug_eq, delete_drug_with_eq, heq]
    exact ⟨rfl, rfl⟩
  · intro delStmt s e h0 hdel hcls hcode
    have heq := deleteWithCheck_1451 (fun s2 => countPrescriptionsOfDrug s2 gid)
      delStmt drugHasDepsMsg (drugNotFoundMsg gid) drugDeletedMsg drugFkMsg drugWrapMsg c s e h0 hdel hcls hcode
    rw [delete_drug_with_eq, heq]
    exact ⟨rfl, rfl⟩
  · intro h0 hrow
    have hguard : ¬ 0 < (c.pending.prescriptions.filter (fun p => p.drug_id == gid)).length := by
      unfold countPrescriptionsOfDrug at h0
      omega
    have hdel : deleteDrugStmt gid c.pending = Except.ok
        (({ c.pending with
              drugs := c.pending.drugs.filter (fun x => !(x.drug_id == gid)) } :
            HospitalDb), 0) := by
      simp only [deleteDrugStmt, if_neg hguard, hrow]
    have heq := deleteWithCheck_zero_rows (fun s => countPrescriptionsOfDrug s gid)
      (deleteDrugStmt gid) drugHasDepsMsg (drugNotFoundMsg gid) drugDeletedMsg drugFkMsg drugWrapMsg c _ h0 hdel
    rw [delete_drug_eq, delete_drug_with_eq, heq]
    rfl
  · intro delStmt e2 hres hcls
    rw [delete_drug_with_eq] at hres
    exact deleteWithCheck_never_1451 (fun s => countPrescriptionsOfDrug s gid)
      delStmt drugHasDepsMsg (drugNotFoundMsg gid) drugDeletedMsg drugFkMsg drugWrapMsg c e2 hres hcls

theorem delete_department_fk_guard_miss (c : Conn HospitalDb) (did : Int)
    (h0 : countDoctorsOfDepartment c.pending did = 0)
    (hreg : 0 < (c.pending.registrations.filter (fun r => r.department_id == did)).length) :
    (HospitalService.delete_department did c).1.retFailure = true ∧
    (HospitalService.delete_department did c).2.1 =
      { committed := c.committed, pending := c.committed } := by
  have hcond : 0 < (c.pending.doctors.filter (fun d => d.department_id == did)).length +
      (c.pending.registrations.filter (fun r => r.department_id == did)).length := by
    omega
  have hdel : deleteDepartmentStmt did c.pending =
      Except.error (c.pending, integrityError1451) := by
    simp only [deleteDepartmentStmt, if_pos hcond]
  have heq := deleteWithCheck_1451 (fun s => countDoctorsOfDepartment s did)
    (deleteDepartmentStmt did) departmentHasDepsMsg (departmentNotFoundMsg did)
    departmentDeletedMsg departmentFkMsg departmentWrapMsg c _ _ h0 hdel rfl rfl
  rw [delete_department_eq, delete_department_with_eq, heq]
  exact ⟨rfl, rfl⟩

/-- C10: each of delete_patient, delete_doctor, delete_department and
delete_drug returns a success-False dictionary and leaves the connection
untouched (no DELETE attempted) when its dependent-record count is
positive; returns success False with the committed state unchanged when
the DELETE raises IntegrityError 1451; returns success False rather than
raising when the DELETE affects zero rows; and never propagates an
IntegrityError with code 1451 to the caller.  For delete_department the
1451 handler is reachable: with zero doctors but registrations still
referencing the department, the DELETE itself fails with 1451, and the
method still returns success False with the committed state unchanged,
so a row with dependents is never deleted. -/
theorem delete_methods_safe :
    (∀ (c : Conn HospitalDb) (pid : Int),
      (0 < countRegistrationsOfPatient c.pending pid →
        HospitalService.delete_patient pid c =
          ((HospitalService.delete_patient pid c).1, c, []) ∧
        (HospitalService.delete_patient pid c).1.retFailure = true) ∧
      (∀ delStmt s e, countRegistrationsOfPatient c.pending pid = 0 →
        delStmt c.pending = Except.error (s, e) →
        e.cls = PyCls.integrityError →
        e.args.headD Value.vNull = Value.vInt 1451 →
        (HospitalService.delete_patient_with delStmt pid c).1.retFailure = true ∧
        (HospitalService.delete_patient_with delStmt pid c).2.1 =
          { committed := c.committed, pending := c.committed }) ∧
      (countRegistrationsOfPatient c.pending pid = 0 →
        (c.pending.patients.filter (fun x => x.patient_id == pid)).length = 0 →
        (HospitalService.delete_patient pid c).1.retFailure = true) ∧
      (∀ delStmt e2, (HospitalService.delete_patient_with delStmt pid c).1 =
          DelOutcome.raiseExn (AppExn.pymysqlError e2) →
        e2.cls = PyCls.integrityError →
        e2.args.headD Value.vNull ≠ Value.vInt 1451)) ∧
    (∀ (c : Conn HospitalDb) (did : Int),
      (0 < countRegistrationsOfDoctor c.pending did →
        HospitalService.delete_doctor did c =
          ((HospitalService.delete_doctor did c).1, c, []) ∧
        (HospitalService.delete_doctor did c).1.retFailure = true) ∧
      (∀ delStmt s e, countRegistrationsOfDoctor c.pending did = 0 →
        delStmt c.pending = Except.error (s, e) →
        e.cls = PyCls.integrityError →
        e.args.headD Value.vNull = Value.vInt 1451 →
        (HospitalService.delete_doctor_with delStmt did c).1.retFailure = true ∧
        (HospitalService.delete_doctor_with delStmt did c).2.1 =
          { committed := c.committed, pending := c.committed }) ∧
      (countRegistrationsOfDoctor c.pending did = 0 →
        (c.pending.doctors.filter (fun x => x.doctor_id == did)).length = 0 →
        (HospitalService.delete_doctor did c).1.retFailure = true) ∧
      (∀ delStmt e2, (HospitalService.delete_doctor_with delStmt did c).1 =
          DelOutcome.raiseExn (AppExn.pymysqlError e2) →
        e2.cls = PyCls.integrityError →
        e2.args.headD Value.vNull ≠ Value.vInt 1451)) ∧
    (∀ (c : Conn HospitalDb) (did : Int),
      (0 < countDoctorsOfDepartment c.pending did →
        HospitalService.delete_department did c =
          ((HospitalService.delete_department did c).1, c, []) ∧
        (HospitalService.delete_department did c).1.retFailure = true) ∧
      (∀ delStmt s e, countDoctorsOfDepartment c.pending did = 0 →
        delStmt c.pending = Except.error (s, e) →
        e.cls = PyCls.integrityError →
        e.args.headD Value.vNull = Value.vInt 1451 →
        (HospitalService.delete_department_with delStmt did c).1.retFailure = true ∧
        (HospitalService.delete_department_with delStmt did c).2.1 =
          { committed := c.committed, pending := c.committed }) ∧
      (countDoctorsOfDepartment c.pending did = 0 →
        (c.pending.registrations.filter (fun r => r.department_id == did)).length = 0 →
        (c.pending.departments.filter (fun x => x.department_id == did)).length = 0 →
        (HospitalService.delete_department did c).1.retFailure = true) ∧
      (∀ delStmt e2, (HospitalService.delete_department_with delStmt did c).1 =
          DelOutcome.raiseExn (AppExn.pymysqlError e2) →
        e2.cls = PyCls.integrityError →
        e2.args.headD Value.vNull ≠ Value.vInt 1451) ∧
      (countDoctorsOfDepartment c.pending did = 0 →
        0 < (c.pending.registrations.filter (fun r => r.department_id == did)).length →
        (HospitalService.delete_department did c).1.retFailure = true ∧
        (HospitalService.delete_department did c).2.1 =
          { committed := c.committed, pending := c.committed })) ∧
    (∀ (c : Conn HospitalDb) (gid : Int),
      (0 < countPrescriptionsOfDrug c.pending gid →
        HospitalService.delete_drug gid c =
          ((HospitalService.delete_drug gid c).1, c, []) ∧
        (HospitalService.delete_drug gid c).1.retFailure = true) ∧
      (∀ delStmt s e, countPrescriptionsOfDrug c.pending gid = 0 →
        delStmt c.pending = Except.error (s, e) →
        e.cls = PyCls.integrityError →
        e.args.headD Value.vNull = Value.vInt 1451 →
        (HospitalService.delete_drug_with delStmt gid c).1.retFailure = true ∧
        (HospitalService.delete_drug_with delStmt gid c).2.1 =
          { committed := c.committed, pending := c.committed }) ∧
      (countPrescriptionsOfDrug c.pending gid = 0 →
        (c.pending.drugs.filter (fun x => x.drug_id == gid)).length = 0 →
        (HospitalService.delete_drug gid c).1.retFailure = true) ∧
      (∀ delStmt e2, (HospitalService.delete_drug_with delStmt gid c).1 =
          DelOutcome.raiseExn (AppExn.pymysqlError e2) →
        e2.cls = PyCls.integrityError →
        e2.args.headD Value.vNull ≠ Value.vInt 1451)) := by
  refine ⟨fun c pid => delete_patient_props c pid,
    fun c did => delete_doctor_props c did,
    fun c did => ?_,
    fun c gid => delete_drug_props c gid⟩
  obtain ⟨h1, h2, h3, h4⟩ := delete_department_props c did
  exact ⟨h1, h2, h3, h4, fun h0 hreg => delete_department_fk_guard_miss c did h0 hreg⟩

/-! ### Concrete database used by witnesses -/

def patientP : PatientRow :=
  { patient_id := 10, patient_name := "Zhang San", gender := "M", phone := "13800000000" }

def regWaiting : RegistrationRow :=
  { registration_id := 100, patient_id := 10, doctor_id := 7, department_id := 1,
    registration_date := 20250101, registration_time := 900, chief_complaint := "cough",
    status := 1 }

def regDone : RegistrationRow :=
  { registration_id := 101, patient_id := 10, doctor_id := 7, department_id := 1,
    registration_date := 20250101, registration_time := 800, chief_complaint := "fever",
    status := 2 }

def drugLow : DrugRow :=
  { drug_id := 21, drug_name := "Aspirin", drug_code := "ASP01", specification := "500mg",
    unit_price := 12, stored_quantity := 3 }

def drugEdge : DrugRow :=
  { drug_id := 22, drug_name := "Ibuprofen", drug_code := "IBU01", specification := "200mg",
    unit_price := 15, stored_quantity := 10 }

def demoDb : HospitalDb :=
  { patients := [patientP], doctors := [], departments := [{ department_id := 1 }],
    registrations := [regWaiting, regDone], drugs := [drugLow, drugEdge],
    prescriptions := [] }

def adminConn : Conn HospitalDb := ⟨demoDb, demoDb⟩

/-- Witness for C7: the status-1 registration of doctor 7 appears in the
waiting list, the completed (status 2) one does not. -/
theorem get_waiting_list_correct_witness :
    projWaiting regWaiting patientP ∈ HospitalService.get_waiting_list demoDb 7 ∧
    projWaiting regDone patientP ∉ HospitalService.get_waiting_list demoDb 7 := by
  constructor
  · exact ((get_waiting_list_correct demoDb 7).1 _).2
      ⟨regWaiting, by decide, patientP, by decide, rfl, rfl, rfl, rfl⟩
  · intro hmem
    have hst := (get_waiting_list_correct demoDb 7).2.2 _ hmem
    exact absurd hst (by decide)

/-- Witness for C8: the quantity-3 drug is reported below threshold 10,
the quantity-10 drug is not. -/
theorem get_low_stock_drugs_correct_witness :
    projLowStock drugLow ∈ HospitalService.get_low_stock_drugs demoDb 10 ∧
    projLowStock drugEdge ∉ HospitalService.get_low_stock_drugs demoDb 10 := by
  constructor
  · exact ((get_low_stock_drugs_correct demoDb 10).1 _).2 ⟨drugLow, by decide, by decide, rfl⟩
  · exact (get_low_stock_drugs_correct demoDb 10).2.2.1 drugEdge (by decide) rfl

/-- Witness for C10: patient 10 has two registrations, so delete_patient
returns success False without touching the connection or attempting the
DELETE. -/
theorem delete_methods_safe_witness :
    (HospitalService.delete_patient 10 adminConn).1.retFailure = true ∧
    HospitalService.delete_patient 10 adminConn =
      ((HospitalService.delete_patient 10 adminConn).1, adminConn, []) := by
  have h := (delete_methods_safe.1 adminConn 10).1 (by decide)
  exact ⟨h.2, h.1⟩
